import Mathlib

set_option autoImplicit false
set_option maxHeartbeats 1000000

/- Verification of the mcp-hubspot server (src/mcp_server_hubspot/client.py and
   src/mcp_server_hubspot/server.py) against its specification.

   Python runtime values are modelled by the mutual inductive family
   PyVal / PyList / PyFields.  Dicts keep insertion order, as Python dicts do.
   A datetime value is identified by its isoformat rendering (the only way the
   program observes one); a dateutil tzlocal value is a distinguished constant.
   Fallible Python code is modelled in the Except monad over PyErr, which
   distinguishes hubspot ApiException from every other exception, because the
   server catches those two classes differently. -/

mutual

inductive PyVal : Type where
  | str : String → PyVal
  | int : Int → PyVal
  | bool : Bool → PyVal
  | none : PyVal
  | dt : String → PyVal
  | tzl : PyVal
  | list : PyList → PyVal
  | dict : PyFields → PyVal

inductive PyList : Type where
  | nil : PyList
  | cons : PyVal → PyList → PyList

inductive PyFields : Type where
  | nil : PyFields
  | cons : String → PyVal → PyFields → PyFields

end

def PyList.ofList : List PyVal → PyList
  | [] => PyList.nil
  | x :: xs => PyList.cons x (PyList.ofList xs)

def PyList.toList : PyList → List PyVal
  | PyList.nil => []
  | PyList.cons x xs => x :: xs.toList

def PyFields.ofList : List (String × PyVal) → PyFields
  | [] => PyFields.nil
  | (k, v) :: xs => PyFields.cons k v (PyFields.ofList xs)

def PyFields.keys : PyFields → List String
  | PyFields.nil => []
  | PyFields.cons k _ xs => k :: xs.keys

/-- First-match lookup in a Python dict (keys are unique in real dicts). -/
def PyFields.lookup : PyFields → String → Option PyVal
  | PyFields.nil, _ => Option.none
  | PyFields.cons k v xs, q => if k = q then some v else xs.lookup q

/-- Python dict .get(k, d). -/
def PyFields.getD (fs : PyFields) (q : String) (d : PyVal) : PyVal :=
  match fs.lookup q with
  | some v => v
  | Option.none => d

def PyFields.hasKey (fs : PyFields) (q : String) : Bool :=
  match fs.lookup q with
  | some _ => true
  | Option.none => false

/-- Python dict item assignment d[k] = v: an existing key is updated in place,
a new key is appended (insertion order semantics). -/
def PyFields.set : PyFields → String → PyVal → PyFields
  | PyFields.nil, q, v => PyFields.cons q v PyFields.nil
  | PyFields.cons k w xs, q, v =>
      if k = q then PyFields.cons k v xs else PyFields.cons k w (xs.set q v)

/-- Python dict.update(other) for a dict argument: assigns every pair of
other into the receiver, in iteration order. -/
def updateFields (base : PyFields) : PyFields → PyFields
  | PyFields.nil => base
  | PyFields.cons k v xs => updateFields (base.set k v) xs

/-- Python truthiness of a value. -/
def pyTruthy : PyVal → Bool
  | PyVal.str s => s ≠ ""
  | PyVal.int n => n ≠ 0
  | PyVal.bool b => b
  | PyVal.none => false
  | PyVal.dt _ => true
  | PyVal.tzl => true
  | PyVal.list PyList.nil => false
  | PyVal.list (PyList.cons _ _) => true
  | PyVal.dict PyFields.nil => false
  | PyVal.dict (PyFields.cons _ _ _) => true

/-- Python string slice s[:n], as used on the strftime result. -/
def pySliceTo (s : String) (n : Nat) : String :=
  String.mk (s.data.take n)

/-- Python string slice s[n:], as used on the strftime result. -/
def pySliceFrom (s : String) (n : Nat) : String :=
  String.mk (s.data.drop n)

/-- The f-string "UTC{offset[:3]}:{offset[3:]}" of client.py line 23, applied
to the %z rendering of the local timezone (e.g. "+0800"). -/
def tzRender (off : String) : String :=
  "UTC" ++ pySliceTo off 3 ++ ":" ++ pySliceFrom off 3

mutual

/-- client.py convert_datetime_fields.  The extra argument off models the
environment: the %z strftime rendering of the local timezone that line 22
would compute (datetime.now(tzlocal()).strftime with %z). -/
def convert_datetime_fields (off : String) : PyVal → PyVal
  | PyVal.dict fs => PyVal.dict (convertFields off fs)
  | PyVal.list xs => PyVal.list (convertList off xs)
  | PyVal.dt iso => PyVal.str iso
  | PyVal.tzl => PyVal.str (tzRender off)
  | PyVal.str s => PyVal.str s
  | PyVal.int n => PyVal.int n
  | PyVal.bool b => PyVal.bool b
  | PyVal.none => PyVal.none

/-- The dict comprehension of client.py line 15. -/
def convertFields (off : String) : PyFields → PyFields
  | PyFields.nil => PyFields.nil
  | PyFields.cons k v xs => PyFields.cons k (convert_datetime_fields off v) (convertFields off xs)

/-- The list comprehension of client.py line 17. -/
def convertList (off : String) : PyList → PyList
  | PyList.nil => PyList.nil
  | PyList.cons x xs => PyList.cons (convert_datetime_fields off x) (convertList off xs)

end

mutual

/-- True when a value tree holds no datetime and no tzlocal value. -/
def noTemporal : PyVal → Bool
  | PyVal.dict fs => noTemporalFields fs
  | PyVal.list xs => noTemporalList xs
  | PyVal.dt _ => false
  | PyVal.tzl => false
  | _ => true

def noTemporalFields : PyFields → Bool
  | PyFields.nil => true
  | PyFields.cons _ v xs => noTemporal v && noTemporalFields xs

def noTemporalList : PyList → Bool
  | PyList.nil => true
  | PyList.cons x xs => noTemporal x && noTemporalList xs

end

/-- Escape for the model JSON encoder: backslash and double quote. -/
def jsonEscape (s : String) : String :=
  String.mk (s.data.foldr
    (fun c acc => if c = '"' ∨ c = '\\' then '\\' :: c :: acc else c :: acc) [])

mutual

/-- Model of json.dumps: returns Option.none exactly where json.dumps raises
TypeError, namely on a datetime or tzlocal value. -/
def toJson : PyVal → Option String
  | PyVal.str s => some ("\"" ++ jsonEscape s ++ "\"")
  | PyVal.int n => some (toString n)
  | PyVal.bool b => some (if b then "true" else "false")
  | PyVal.none => some "null"
  | PyVal.dt _ => Option.none
  | PyVal.tzl => Option.none
  | PyVal.list xs =>
      match toJsonList xs with
      | some parts => some ("[" ++ String.intercalate ", " parts ++ "]")
      | Option.none => Option.none
  | PyVal.dict fs =>
      match toJsonFields fs with
      | some parts => some ("\x7b" ++ String.intercalate ", " parts ++ "\x7d")
      | Option.none => Option.none

def toJsonList : PyList → Option (List String)
  | PyList.nil => some []
  | PyList.cons x xs =>
      match toJson x, toJsonList xs with
      | some s, some rest => some (s :: rest)
      | _, _ => Option.none

def toJsonFields : PyFields → Option (List String)
  | PyFields.nil => some []
  | PyFields.cons k v xs =>
      match toJson v, toJsonFields xs with
      | some s, some rest => some (("\"" ++ jsonEscape k ++ "\": " ++ s) :: rest)
      | _, _ => Option.none

end

inductive PyErr : Type where
  | api : String → PyErr
  | other : String → PyErr

/-- str(e) of a caught Python exception: the carried message. -/
def PyErr.msg : PyErr → String
  | PyErr.api m => m
  | PyErr.other m => m

/-- Python x.get(k, d): returns the dict lookup with default, and raises
AttributeError when the receiver is not a dict. -/
def pyGet (v : PyVal) (k : String) (d : PyVal) : Except PyErr PyVal :=
  match v with
  | PyVal.dict fs => Except.ok (fs.getD k d)
  | _ => Except.error (PyErr.other ("AttributeError: " ++ k))

/-- Python iteration over a value: lists iterate their items, anything else
used in a for-loop here raises TypeError. -/
def pyIter (v : PyVal) : Except PyErr (List PyVal) :=
  match v with
  | PyVal.list xs => Except.ok xs.toList
  | _ => Except.error (PyErr.other "TypeError: object is not iterable")

/-- Python int(x) as applied to tool arguments. -/
def pyInt (v : PyVal) : Except PyErr Int :=
  match v with
  | PyVal.int n => Except.ok n
  | PyVal.bool b => Except.ok (if b then 1 else 0)
  | PyVal.str s =>
      match s.toInt? with
      | some n => Except.ok n
      | Option.none => Except.error (PyErr.other ("ValueError: invalid literal for int with base 10: " ++ s))
  | _ => Except.error (PyErr.other "TypeError: int argument must be a string or a number")

/-- Python dict indexing d[k]; raises KeyError when the key is absent. -/
def dictIndex (d : PyFields) (k : String) : Except PyErr PyVal :=
  match d.lookup k with
  | some v => Except.ok v
  | Option.none => Except.error (PyErr.other ("KeyError: " ++ k))

/-- Python dict.update(x); raises TypeError when x is not a mapping. -/
def pyUpdate (base : PyFields) (v : PyVal) : Except PyErr PyFields :=
  match v with
  | PyVal.dict fs => Except.ok (updateFields base fs)
  | _ => Except.error (PyErr.other "TypeError: argument of update must be a mapping")

mutual

/-- Model rendering of repr(v); the exact text is never compared against
Python output by any claim, it only needs to be a function of the value. -/
def pyRepr : PyVal → String
  | PyVal.str s => "\"" ++ s ++ "\""
  | PyVal.int n => toString n
  | PyVal.bool b => if b then "True" else "False"
  | PyVal.none => "None"
  | PyVal.dt iso => iso
  | PyVal.tzl => "tzlocal()"
  | PyVal.list xs => "[" ++ String.intercalate ", " (pyReprList xs) ++ "]"
  | PyVal.dict fs => "\x7b" ++ String.intercalate ", " (pyReprFields fs) ++ "\x7d"

def pyReprList : PyList → List String
  | PyList.nil => []
  | PyList.cons x xs => pyRepr x :: pyReprList xs

def pyReprFields : PyFields → List String
  | PyFields.nil => []
  | PyFields.cons k v xs => ("\"" ++ k ++ "\": " ++ pyRepr v) :: pyReprFields xs

end

/-- Model rendering of str(v). -/
def pyToStr (v : PyVal) : String :=
  match v with
  | PyVal.str s => s
  | _ => pyRepr v

def emptyDict : PyVal := PyVal.dict PyFields.nil

def emptyList : PyVal := PyVal.list PyList.nil

/-- The json.dumps of an error record: json.dumps with a single error key. -/
def errJson (m : String) : String :=
  (toJson (PyVal.dict (PyFields.cons "error" (PyVal.str m) PyFields.nil))).getD ""

/-- json.dumps of an operation payload inside the operation's try block: if it
raised TypeError (a remaining temporal value) the except-clause of the
operation would produce the error record instead. -/
def jsonOut (v : PyVal) : String :=
  match toJson v with
  | some s => s
  | Option.none => errJson "TypeError: Object of type datetime is not JSON serializable"

/-- json.dumps as used by the conversation sub-tool branches of server.py,
where a TypeError would escape to the top-level dispatch handler. -/
def jsonDumpsE (v : PyVal) : Except PyErr String :=
  match toJson v with
  | some s => Except.ok s
  | Option.none => Except.error (PyErr.other "TypeError: Object of type datetime is not JSON serializable")

/-- A hubspot search request (PublicObjectSearchRequest). -/
structure SearchReq : Type where
  sorts : List PyVal
  filter_groups : List PyVal
  limit : Option Int
  properties : List String

/-- A hubspot search response: total count plus one page of results, each
result given as its to_dict rendering. -/
structure SearchResponse : Type where
  total : Int
  results : List PyVal

/-- One entry of an associations page. -/
structure AssocResult : Type where
  to_object_id : PyVal

/-- A generic authenticated api_request descriptor. -/
structure ApiReq : Type where
  method : String
  path : String
  params : PyFields

/-- The capability contract of the upstream hubspot platform (spec section 6):
search and create per object type, the associations lookup, and the generic
authenticated HTTP call.  An Except.error result models a raised exception,
tagged api for hubspot ApiException and other for anything else. -/
structure Upstream : Type where
  search_contacts : SearchReq → Except PyErr SearchResponse
  search_companies : SearchReq → Except PyErr SearchResponse
  create_contact : PyFields → Except PyErr PyVal
  create_company : PyFields → Except PyErr PyVal
  assoc_page : String → PyVal → String → Int → Except PyErr (List AssocResult)
  api_request : ApiReq → Except PyErr PyVal

/-- A Python for-loop that builds a list by appending f of each item, stopped
by the first raised exception.  This is the accumulation pattern of every
formatting loop in client.py. -/
def mapME (f : PyVal → Except PyErr PyVal) : List PyVal → Except PyErr (List PyVal)
  | [] => Except.ok []
  | x :: xs =>
    match f x with
    | Except.error e => Except.error e
    | Except.ok y =>
      match mapME f xs with
      | Except.error e => Except.error e
      | Except.ok ys => Except.ok (y :: ys)

/-- The sorted search request of get_recent_companies (client.py lines 45-52). -/
def companiesSearchReq (limit : Int) : SearchReq :=
  { sorts := [PyVal.dict (PyFields.ofList
      [("propertyName", PyVal.str "lastmodifieddate"), ("direction", PyVal.str "DESCENDING")])],
    filter_groups := [],
    limit := some limit,
    properties := ["name", "domain", "website", "phone", "industry", "hs_lastmodifieddate"] }

/-- The sorted search request of get_recent_contacts (client.py lines 81-88). -/
def contactsSearchReq (limit : Int) : SearchReq :=
  { sorts := [PyVal.dict (PyFields.ofList
      [("propertyName", PyVal.str "lastmodifieddate"), ("direction", PyVal.str "DESCENDING")])],
    filter_groups := [],
    limit := some limit,
    properties := ["firstname", "lastname", "email", "phone", "company",
                   "hs_lastmodifieddate", "lastmodifieddate"] }

/-- client.py get_recent_companies. -/
def get_recent_companies (env : Upstream) (off : String) (limit : Int) : String :=
  match env.search_companies (companiesSearchReq limit) with
  | Except.ok resp =>
      jsonOut (convert_datetime_fields off (PyVal.list (PyList.ofList resp.results)))
  | Except.error e => errJson e.msg

/-- client.py get_recent_contacts. -/
def get_recent_contacts (env : Upstream) (off : String) (limit : Int) : String :=
  match env.search_contacts (contactsSearchReq limit) with
  | Except.ok resp =>
      jsonOut (convert_datetime_fields off (PyVal.list (PyList.ofList resp.results)))
  | Except.error e => errJson e.msg

/-- One entry of the to/cc/bcc list comprehensions of the EMAIL branch. -/
def formatRecipient (r : PyVal) : Except PyErr PyVal := do
  let raw ← pyGet r "raw" (PyVal.str "")
  let em ← pyGet r "email" (PyVal.str "")
  let fn ← pyGet r "firstName" (PyVal.str "")
  let ln ← pyGet r "lastName" (PyVal.str "")
  pure (PyVal.dict (PyFields.ofList
    [("raw", raw), ("email", em), ("firstName", fn), ("lastName", ln)]))

/-- Python v == s for a string literal s: true exactly when v is an equal
string (Python equality across types is False, not an error). -/
def pyEqStr (v : PyVal) (s : String) : Bool :=
  match v with
  | PyVal.str t => t = s
  | _ => false

/-- The per-engagement formatting shared verbatim by get_company_activity
(client.py lines 132-207) and get_recent_engagements (lines 251-325): the two
code sites are byte-identical, so they are embedded once.  The argument is the
raw engagement record (engagement_response in the first site, engagement in
the second). -/
def format_engagement (engResp : PyVal) : Except PyErr PyVal := do
  let ed ← pyGet engResp "engagement" emptyDict
  let md ← pyGet engResp "metadata" emptyDict
  let i ← pyGet ed "id" PyVal.none
  let ty ← pyGet ed "type" PyVal.none
  let ca ← pyGet ed "createdAt" PyVal.none
  let lu ← pyGet ed "lastUpdated" PyVal.none
  let cb ← pyGet ed "createdBy" PyVal.none
  let mb ← pyGet ed "modifiedBy" PyVal.none
  let ts ← pyGet ed "timestamp" PyVal.none
  let assoc ← pyGet engResp "associations" emptyDict
  let base := [("id", i), ("type", ty), ("created_at", ca), ("last_updated", lu),
               ("created_by", cb), ("modified_by", mb), ("timestamp", ts),
               ("associations", assoc)]
  if pyEqStr ty "NOTE" then do
    let body ← pyGet md "body" (PyVal.str "")
    pure (PyVal.dict (PyFields.ofList (base ++ [("content", body)])))
  else if pyEqStr ty "EMAIL" then do
    let subj ← pyGet md "subject" (PyVal.str "")
    let fromD ← pyGet md "from" emptyDict
    let fraw ← pyGet fromD "raw" (PyVal.str "")
    let fem ← pyGet fromD "email" (PyVal.str "")
    let ffn ← pyGet fromD "firstName" (PyVal.str "")
    let fln ← pyGet fromD "lastName" (PyVal.str "")
    let toRaw ← pyGet md "to" emptyList
    let toItems ← pyIter toRaw
    let toF ← mapME formatRecipient toItems
    let ccRaw ← pyGet md "cc" emptyList
    let ccItems ← pyIter ccRaw
    let ccF ← mapME formatRecipient ccItems
    let bccRaw ← pyGet md "bcc" emptyList
    let bccItems ← pyIter bccRaw
    let bccF ← mapME formatRecipient bccItems
    let senderD ← pyGet md "sender" emptyDict
    let sem ← pyGet senderD "email" (PyVal.str "")
    let textV ← pyGet md "text" (PyVal.str "")
    let htmlV ← pyGet md "html" (PyVal.str "")
    let body := if pyTruthy textV then textV else htmlV
    pure (PyVal.dict (PyFields.ofList (base ++ [("content", PyVal.dict (PyFields.ofList
      [("subject", subj),
       ("from", PyVal.dict (PyFields.ofList
         [("raw", fraw), ("email", fem), ("firstName", ffn), ("lastName", fln)])),
       ("to", PyVal.list (PyList.ofList toF)),
       ("cc", PyVal.list (PyList.ofList ccF)),
       ("bcc", PyVal.list (PyList.ofList bccF)),
       ("sender", PyVal.dict (PyFields.ofList [("email", sem)])),
       ("body", body)]))])))
  else if pyEqStr ty "TASK" then do
    let subj ← pyGet md "subject" (PyVal.str "")
    let body ← pyGet md "body" (PyVal.str "")
    let st ← pyGet md "status" (PyVal.str "")
    let fot ← pyGet md "forObjectType" (PyVal.str "")
    pure (PyVal.dict (PyFields.ofList (base ++ [("content", PyVal.dict (PyFields.ofList
      [("subject", subj), ("body", body), ("status", st), ("for_object_type", fot)]))])))
  else if pyEqStr ty "MEETING" then do
    let ti ← pyGet md "title" (PyVal.str "")
    let body ← pyGet md "body" (PyVal.str "")
    let st ← pyGet md "startTime" PyVal.none
    let et ← pyGet md "endTime" PyVal.none
    let notes ← pyGet md "internalMeetingNotes" (PyVal.str "")
    pure (PyVal.dict (PyFields.ofList (base ++ [("content", PyVal.dict (PyFields.ofList
      [("title", ti), ("body", body), ("start_time", st), ("end_time", et),
       ("internal_notes", notes)]))])))
  else if pyEqStr ty "CALL" then do
    let body ← pyGet md "body" (PyVal.str "")
    let fn ← pyGet md "fromNumber" (PyVal.str "")
    let tn ← pyGet md "toNumber" (PyVal.str "")
    let dur ← pyGet md "durationMilliseconds" PyVal.none
    let st ← pyGet md "status" (PyVal.str "")
    let disp ← pyGet md "disposition" (PyVal.str "")
    pure (PyVal.dict (PyFields.ofList (base ++ [("content", PyVal.dict (PyFields.ofList
      [("body", body), ("from_number", fn), ("to_number", tn), ("duration_ms", dur),
       ("status", st), ("disposition", disp)]))])))
  else
    pure (PyVal.dict (PyFields.ofList base))

/-- The engagement-detail request of client.py lines 127-130. -/
def engDetailReq (i : PyVal) : ApiReq :=
  { method := "GET", path := "/engagements/v1/engagements/" ++ pyToStr i,
    params := PyFields.nil }

/-- client.py get_company_activity. -/
def get_company_activity (env : Upstream) (off : String) (company_id : PyVal) : String :=
  match (do
    let assocs ← env.assoc_page "companies" company_id "engagements" 500
    let ids := assocs.map (fun r => r.to_object_id)
    let activities ← mapME (fun i => do
      let resp ← env.api_request (engDetailReq i)
      format_engagement resp) ids
    pure activities : Except PyErr (List PyVal)) with
  | Except.ok acts => jsonOut (convert_datetime_fields off (PyVal.list (PyList.ofList acts)))
  | Except.error e => errJson e.msg

/-- Microseconds per day: timedelta(days=1) at the microsecond resolution of
Python datetimes. -/
def usPerDay : Int := 86400000000

/-- Python int(t.timestamp() * 1000) for a datetime holding us microseconds
since the epoch: timestamp() is us / 10^6 seconds, so the expression is
us / 1000 truncated toward zero. -/
def pyTimestampMs (us : Int) : Int := Int.tdiv us 1000

/-- The recent-engagements window request of client.py lines 237-245, for a
current time of nowUs microseconds since the epoch. -/
def recentEngagementsReq (nowUs : Int) (days limit : Int) : ApiReq :=
  { method := "GET",
    path := "/engagements/v1/engagements/recent/modified",
    params := PyFields.ofList
      [("count", PyVal.int limit),
       ("since", PyVal.int (pyTimestampMs (nowUs - days * usPerDay))),
       ("offset", PyVal.int 0)] }

/-- client.py get_recent_engagements; nowUs models datetime.now(). -/
def get_recent_engagements (env : Upstream) (off : String) (nowUs : Int)
    (days limit : Int) : String :=
  match (do
    let resp ← env.api_request (recentEngagementsReq nowUs days limit)
    let rs ← pyGet resp "results" emptyList
    let items ← pyIter rs
    let fes ← mapME format_engagement items
    pure fes : Except PyErr (List PyVal)) with
  | Except.ok fes => jsonOut (convert_datetime_fields off (PyVal.list (PyList.ofList fes)))
  | Except.error e => errJson e.msg

/-- The inboxes request of client.py lines 346-352. -/
def inboxesReq (limit : Int) : ApiReq :=
  { method := "GET", path := "/conversations/v3/conversations/inboxes",
    params := PyFields.ofList [("limit", PyVal.int limit)] }

/-- The per-inbox channel-accounts request of client.py lines 370-376. -/
def channelsReq (inboxId : PyVal) : ApiReq :=
  { method := "GET", path := "/conversations/v3/conversations/channel-accounts",
    params := PyFields.ofList [("inboxId", inboxId)] }

/-- The per-inbox conversations request of client.py lines 402-409. -/
def convosReq (inboxId : PyVal) (limit : Int) : ApiReq :=
  { method := "GET", path := "/conversations/v3/conversations",
    params := PyFields.ofList [("inboxId", inboxId), ("limit", PyVal.int limit)] }

/-- The per-conversation messages request of client.py lines 433-436. -/
def messagesReq (convId : PyVal) : ApiReq :=
  { method := "GET",
    path := "/conversations/v3/conversations/" ++ pyToStr convId ++ "/messages",
    params := PyFields.nil }

/-- The channel formatting of client.py lines 379-392. -/
def formatChannel (channel : PyVal) : Except PyErr PyVal := do
  let i ← pyGet channel "id" PyVal.none
  let nm ← pyGet channel "name" PyVal.none
  let cid ← pyGet channel "channelId" PyVal.none
  let iid ← pyGet channel "inboxId" PyVal.none
  let ca ← pyGet channel "createdAt" PyVal.none
  let aa ← pyGet channel "archivedAt" PyVal.none
  let ar ← pyGet channel "archived" PyVal.none
  let au ← pyGet channel "authorized" PyVal.none
  let ac ← pyGet channel "active" PyVal.none
  let di ← pyGet channel "deliveryIdentifier" PyVal.none
  pure (PyVal.dict (PyFields.ofList
    [("id", i), ("name", nm), ("channel_id", cid), ("inbox_id", iid),
     ("created_at", ca), ("archived_at", aa), ("archived", ar),
     ("authorized", au), ("active", ac), ("delivery_identifier", di)]))

/-- The message formatting of client.py lines 440-455. -/
def formatMessage (message : PyVal) : Except PyErr PyVal := do
  let i ← pyGet message "id" PyVal.none
  let ty ← pyGet message "type" PyVal.none
  let st ← pyGet message "status" PyVal.none
  let ct ← pyGet message "createdTime" PyVal.none
  let tx ← pyGet message "text" (PyVal.str "")
  let senderD ← pyGet message "sender" emptyDict
  let sid ← pyGet senderD "id" PyVal.none
  let sty ← pyGet senderD "type" PyVal.none
  let sem ← pyGet senderD "email" PyVal.none
  let recD ← pyGet message "recipient" emptyDict
  let rid ← pyGet recD "id" PyVal.none
  let rty ← pyGet recD "type" PyVal.none
  pure (PyVal.dict (PyFields.ofList
    [("id", i), ("type", ty), ("status", st), ("created_time", ct), ("text", tx),
     ("sender", PyVal.dict (PyFields.ofList [("id", sid), ("type", sty), ("email", sem)])),
     ("recipient", PyVal.dict (PyFields.ofList [("id", rid), ("type", rty)]))]))

/-- The associated contact/company item formatting of client.py lines 421-428. -/
def formatAssociatedObject (o : PyVal) : Except PyErr PyVal := do
  let i ← pyGet o "id" PyVal.none
  let ty ← pyGet o "type" PyVal.none
  pure (PyVal.dict (PyFields.ofList [("id", i), ("type", ty)]))

/-- The per-conversation block of client.py lines 412-463, including the inner
try/except of the messages sub-fetch, which degrades only this conversation's
messages list to empty. -/
def processConversation (env : Upstream) (conversation : PyVal) : Except PyErr PyVal := do
  let i ← pyGet conversation "id" PyVal.none
  let ty ← pyGet conversation "type" PyVal.none
  let st ← pyGet conversation "status" PyVal.none
  let ct ← pyGet conversation "createdTime" PyVal.none
  let ut ← pyGet conversation "updatedTime" PyVal.none
  let subj ← pyGet conversation "subject" (PyVal.str "")
  let ao ← pyGet conversation "associatedObjects" emptyDict
  let contactsRaw ← pyGet ao "contacts" emptyList
  let contactsItems ← pyIter contactsRaw
  let contactsF ← mapME formatAssociatedObject contactsItems
  let companiesRaw ← pyGet ao "companies" emptyList
  let companiesItems ← pyIter companiesRaw
  let companiesF ← mapME formatAssociatedObject companiesItems
  let msgs := match (do
      let resp ← env.api_request (messagesReq i)
      let rs ← pyGet resp "results" emptyList
      let items ← pyIter rs
      mapME formatMessage items : Except PyErr (List PyVal)) with
    | Except.ok ms => ms
    | Except.error _ => []
  pure (PyVal.dict (PyFields.ofList
    [("id", i), ("type", ty), ("status", st), ("created_time", ct),
     ("last_updated_time", ut), ("subject", subj),
     ("associated_contacts", PyVal.list (PyList.ofList contactsF)),
     ("associated_companies", PyVal.list (PyList.ofList companiesF)),
     ("messages", PyVal.list (PyList.ofList msgs))]))

/-- The per-inbox block of client.py lines 356-470, including the two inner
try/excepts: a failed channels sub-fetch degrades only this inbox's channels
list to empty, a failed conversations sub-fetch degrades only this inbox's
conversations list to empty. -/
def processInbox (env : Upstream) (limit : Int) (inbox : PyVal) : Except PyErr PyVal := do
  let i ← pyGet inbox "id" PyVal.none
  let ty ← pyGet inbox "type" PyVal.none
  let nm ← pyGet inbox "name" PyVal.none
  let ca ← pyGet inbox "createdAt" PyVal.none
  let ua ← pyGet inbox "updatedAt" PyVal.none
  let ar ← pyGet inbox "archived" PyVal.none
  let aa ← pyGet inbox "archivedAt" PyVal.none
  let channels := match (do
      let resp ← env.api_request (channelsReq i)
      let rs ← pyGet resp "results" emptyList
      let items ← pyIter rs
      mapME formatChannel items : Except PyErr (List PyVal)) with
    | Except.ok cs => cs
    | Except.error _ => []
  let convos := match (do
      let resp ← env.api_request (convosReq i limit)
      let rs ← pyGet resp "results" emptyList
      let items ← pyIter rs
      mapME (processConversation env) items : Except PyErr (List PyVal)) with
    | Except.ok cs => cs
    | Except.error _ => []
  pure (PyVal.dict (PyFields.ofList
    [("id", i), ("type", ty), ("name", nm), ("created_at", ca), ("updated_at", ua),
     ("archived", ar), ("archived_at", aa),
     ("channels", PyVal.list (PyList.ofList channels)),
     ("conversations", PyVal.list (PyList.ofList convos))]))

/-- client.py get_recent_conversations. -/
def get_recent_conversations (env : Upstream) (off : String) (limit : Int) : String :=
  match (do
    let resp ← env.api_request (inboxesReq limit)
    let rs ← pyGet resp "results" emptyList
    let items ← pyIter rs
    let inboxes ← mapME (processInbox env limit) items
    pure inboxes : Except PyErr (List PyVal)) with
  | Except.ok ibs => jsonOut (convert_datetime_fields off (PyVal.list (PyList.ofList ibs)))
  | Except.error e => errJson e.msg

/-- The channel-accounts request of client.py lines 491-494. -/
def channelAccountsReq : ApiReq :=
  { method := "GET", path := "/conversations/v3/conversations/channel-accounts",
    params := PyFields.nil }

/-- client.py get_channel_accounts. -/
def get_channel_accounts (env : Upstream) (off : String) : String :=
  match (do
    let resp ← env.api_request channelAccountsReq
    pyGet resp "results" emptyList : Except PyErr PyVal) with
  | Except.ok rs => jsonOut (convert_datetime_fields off rs)
  | Except.error e => errJson e.msg

/-- Modelled from the spec: the HubSpotClient conversation sub-operations
(get_inboxes, get_channels_for_inbox, get_all_channels, get_threads_for_inbox,
get_threads_for_channel, get_thread_messages, get_thread_latest_message) are
called by server.py lines 396-453 but their definitions are not part of the
sources under verification; the spec lists the corresponding sub-tools in the
catalog (section 4.2) without fixing their behaviour, so each is an abstract
access-layer operation returning a payload or raising. -/
structure ConvOps : Type where
  get_inboxes : Int → Except PyErr PyVal
  get_channels_for_inbox : PyVal → Except PyErr PyVal
  get_all_channels : Except PyErr PyVal
  get_threads_for_inbox : PyVal → Int → Except PyErr PyVal
  get_threads_for_channel : PyVal → Int → Except PyErr PyVal
  get_thread_messages : PyVal → Int → Except PyErr PyVal
  get_thread_latest_message : PyVal → Except PyErr PyVal

/-- Everything the running server closes over: the upstream platform, the
spec-modelled conversation sub-operations, the local timezone rendering and
the current time. -/
structure Gctx : Type where
  env : Upstream
  conv : ConvOps
  off : String
  nowUs : Int

/-- One content item of a tool response (mcp types.TextContent,
types.ImageContent, types.EmbeddedResource). -/
inductive Content : Type where
  | text : String → Content
  | image : String → Content
  | embedded : String → Content

/-- An mcp types.Tool catalog entry. -/
structure Tool : Type where
  name : String
  description : String
  inputSchema : PyVal

/-- A JSON-schema object with the given properties and required names, as
built inline in handle_list_tools. -/
def mkSchema (props : List (String × PyVal)) (req : List String) : PyVal :=
  PyVal.dict (PyFields.ofList
    ([("type", PyVal.str "object"),
      ("properties", PyVal.dict (PyFields.ofList props))] ++
     (if req.isEmpty then [] else
      [("required", PyVal.list (PyList.ofList (req.map PyVal.str)))])))

/-- A property descriptor of a tool input schema. -/
def mkProp (ty desc : String) : PyVal :=
  PyVal.dict (PyFields.ofList
    [("type", PyVal.str ty), ("description", PyVal.str desc)])

/-- server.py handle_list_tools: the static tool catalog. -/
def handle_list_tools : List Tool :=
  [{ name := "hubspot_create_contact",
     description := "Create a new contact in HubSpot",
     inputSchema := mkSchema
       [("firstname", mkProp "string" "Contact\x27s first name"),
        ("lastname", mkProp "string" "Contact\x27s last name"),
        ("email", mkProp "string" "Contact\x27s email address"),
        ("properties", mkProp "object" "Additional contact properties")]
       ["firstname", "lastname"] },
   { name := "hubspot_create_company",
     description := "Create a new company in HubSpot",
     inputSchema := mkSchema
       [("name", mkProp "string" "Company name"),
        ("properties", mkProp "object" "Additional company properties")]
       ["name"] },
   { name := "hubspot_get_company_activity",
     description := "Get activity history for a specific company",
     inputSchema := mkSchema
       [("company_id", mkProp "string" "HubSpot company ID")]
       ["company_id"] },
   { name := "hubspot_get_recent_engagements",
     description := "Get recent engagement activities across all contacts and companies",
     inputSchema := mkSchema
       [("days", mkProp "integer" "Number of days to look back (default: 7)"),
        ("limit", mkProp "integer" "Maximum number of engagements to return (default: 50)")]
       [] },
   { name := "hubspot_get_active_companies",
     description := "Get most recently active companies from HubSpot",
     inputSchema := mkSchema
       [("limit", mkProp "integer" "Maximum number of companies to return (default: 10)")]
       [] },
   { name := "hubspot_get_active_contacts",
     description := "Get most recently active contacts from HubSpot",
     inputSchema := mkSchema
       [("limit", mkProp "integer" "Maximum number of contacts to return (default: 10)")]
       [] },
   { name := "hubspot_conversations_recent",
     description := "Get recent conversations from HubSpot inbox",
     inputSchema := mkSchema
       [("limit", mkProp "integer" "Maximum number of conversations to return (default: 10)")]
       [] },
   { name := "hubspot_conversations_inboxes",
     description := "Get HubSpot conversation inboxes",
     inputSchema := mkSchema
       [("limit", mkProp "integer" "Maximum number of inboxes to return (default: 10)")]
       [] },
   { name := "hubspot_conversations_channels_for_inbox",
     description := "Get channels for a specific HubSpot inbox",
     inputSchema := mkSchema
       [("inbox_id", mkProp "string" "The ID of the inbox to get channels for")]
       ["inbox_id"] },
   { name := "hubspot_conversations_all_channels",
     description := "Get all HubSpot channel accounts",
     inputSchema := mkSchema [] [] },
   { name := "hubspot_conversations_threads_for_inbox",
     description := "Get conversation threads for a specific inbox",
     inputSchema := mkSchema
       [("inbox_id", mkProp "string" "The ID of the inbox to get threads for"),
        ("limit", mkProp "integer" "Maximum number of threads to return (default: 10)")]
       ["inbox_id"] },
   { name := "hubspot_conversations_threads_for_channel",
     description := "Get conversation threads for a specific channel",
     inputSchema := mkSchema
       [("channel_id", mkProp "string" "The ID of the channel to get threads for"),
        ("limit", mkProp "integer" "Maximum number of threads to return (default: 10)")]
       ["channel_id"] },
   { name := "hubspot_conversations_thread_messages",
     description := "Get messages from a conversation thread",
     inputSchema := mkSchema
       [("thread_id", mkProp "string" "The ID of the thread to get messages from"),
        ("limit", mkProp "integer" "Maximum number of messages to return (default: 10)")]
       ["thread_id"] },
   { name := "hubspot_conversations_thread_latest_message",
     description := "Get the latest message from a conversation thread",
     inputSchema := mkSchema
       [("thread_id", mkProp "string" "The ID of the thread to get the latest message from")]
       ["thread_id"] }]

/-- The advertised tool names, in catalog order. -/
def toolNames : List String := handle_list_tools.map (fun t => t.name)

/-- One EQ filter dict of the idempotency searches of server.py. -/
def eqFilter (prop : String) (v : PyVal) : PyVal :=
  PyVal.dict (PyFields.ofList
    [("propertyName", PyVal.str prop), ("operator", PyVal.str "EQ"), ("value", v)])

/-- The contact idempotency search of server.py lines 215-242: exact match on
firstname and lastname, plus company when that value is truthy. -/
def contactSearchReq (firstname lastname company : PyVal) : SearchReq :=
  { sorts := [],
    filter_groups := [PyVal.dict (PyFields.ofList
      [("filters", PyVal.list (PyList.ofList
        ([eqFilter "firstname" firstname, eqFilter "lastname" lastname] ++
         (if pyTruthy company then [eqFilter "company" company] else []))))])],
    limit := Option.none,
    properties := [] }

/-- The company idempotency search of server.py lines 290-302: exact match on
name. -/
def companySearchReq (companyName : PyVal) : SearchReq :=
  { sorts := [],
    filter_groups := [PyVal.dict (PyFields.ofList
      [("filters", PyVal.list (PyList.ofList [eqFilter "name" companyName]))])],
    limit := Option.none,
    properties := [] }

/-- The properties dict built by the create_contact branch (server.py lines
256-267): required fields first, then email when supplied, then the caller
properties merged on top via dict.update. -/
def contactCreateProps (d : PyFields) (firstname lastname : PyVal) :
    Except PyErr PyFields :=
  let base := PyFields.ofList
    ([("firstname", firstname), ("lastname", lastname)] ++
     (match d.lookup "email" with
      | some ev => [("email", ev)]
      | Option.none => []))
  match d.lookup "properties" with
  | some pv => pyUpdate base pv
  | Option.none => Except.ok base

/-- The properties dict built by the create_company branch (server.py lines
316-322). -/
def companyCreateProps (d : PyFields) (companyName : PyVal) :
    Except PyErr PyFields :=
  let base := PyFields.ofList [("name", companyName)]
  match d.lookup "properties" with
  | some pv => pyUpdate base pv
  | Option.none => Except.ok base

/-- The hubspot_create_contact branch of handle_call_tool (server.py lines
205-280).  The inner try of the source catches only ApiException, hence the
explicit dispatch on the error kind of the search and create calls. -/
def createContactBranch (ctx : Gctx) (args : Option PyFields) :
    Except PyErr (List Content) :=
  match args with
  | some (PyFields.cons k0 v0 rest) =>
    let d := PyFields.cons k0 v0 rest
    (match dictIndex d "firstname" with
     | Except.error e => Except.error e
     | Except.ok firstname =>
       match dictIndex d "lastname" with
       | Except.error e => Except.error e
       | Except.ok lastname =>
         match pyGet (d.getD "properties" emptyDict) "company" PyVal.none with
         | Except.error e => Except.error e
         | Except.ok company =>
           match ctx.env.search_contacts (contactSearchReq firstname lastname company) with
           | Except.error (PyErr.api m) =>
               Except.ok [Content.text ("HubSpot API error: " ++ m)]
           | Except.error (PyErr.other m) => Except.error (PyErr.other m)
           | Except.ok resp =>
             if resp.total > 0 then
               match resp.results with
               | r :: _ =>
                   Except.ok [Content.text ("Contact already exists: " ++ pyToStr r)]
               | [] => Except.error (PyErr.other "IndexError: list index out of range")
             else
               match contactCreateProps d firstname lastname with
               | Except.error e => Except.error e
               | Except.ok props =>
                 match ctx.env.create_contact props with
                 | Except.ok r => Except.ok [Content.text (pyToStr r)]
                 | Except.error (PyErr.api m) =>
                     Except.ok [Content.text ("HubSpot API error: " ++ m)]
                 | Except.error (PyErr.other m) => Except.error (PyErr.other m))
  | _ => Except.error (PyErr.other "Missing arguments for create_contact")

/-- The hubspot_create_company branch of handle_call_tool (server.py lines
282-335). -/
def createCompanyBranch (ctx : Gctx) (args : Option PyFields) :
    Except PyErr (List Content) :=
  match args with
  | some (PyFields.cons k0 v0 rest) =>
    let d := PyFields.cons k0 v0 rest
    (match dictIndex d "name" with
     | Except.error e => Except.error e
     | Except.ok companyName =>
       match ctx.env.search_companies (companySearchReq companyName) with
       | Except.error (PyErr.api m) =>
           Except.ok [Content.text ("HubSpot API error: " ++ m)]
       | Except.error (PyErr.other m) => Except.error (PyErr.other m)
       | Except.ok resp =>
         if resp.total > 0 then
           match resp.results with
           | r :: _ =>
               Except.ok [Content.text ("Company already exists: " ++ pyToStr r)]
           | [] => Except.error (PyErr.other "IndexError: list index out of range")
         else
           match companyCreateProps d companyName with
           | Except.error e => Except.error e
           | Except.ok props =>
             match ctx.env.create_company props with
             | Except.ok r => Except.ok [Content.text (pyToStr r)]
             | Except.error (PyErr.api m) =>
                 Except.ok [Content.text ("HubSpot API error: " ++ m)]
             | Except.error (PyErr.other m) => Except.error (PyErr.other m))
  | _ => Except.error (PyErr.other "Missing arguments for create_company")

/-- The limit/days extraction pattern "arguments.get(k, dflt) if arguments
else dflt" followed by "int(x) if x is not None else dflt". -/
def optIntArg (args : Option PyFields) (k : String) (dflt : Int) :
    Except PyErr Int :=
  let v : PyVal :=
    match args with
    | some (PyFields.cons k0 v0 rest) => (PyFields.cons k0 v0 rest).getD k (PyVal.int dflt)
    | _ => PyVal.int dflt
  match v with
  | PyVal.none => Except.ok dflt
  | w => pyInt w

/-- The same extraction inside the thread/message branches, which index into
an arguments dict already known non-empty: "arguments.get(k, dflt)" then
"int(x) if x is not None else dflt". -/
def fieldsIntArg (d : PyFields) (k : String) (dflt : Int) : Except PyErr Int :=
  match d.getD k (PyVal.int dflt) with
  | PyVal.none => Except.ok dflt
  | w => pyInt w

/-- The "if not arguments or key not in arguments" guard of the conversation
sub-tool branches: the argument value when present in a truthy mapping. -/
def argLookup (args : Option PyFields) (k : String) : Option PyVal :=
  match args with
  | some d => d.lookup k
  | Option.none => Option.none

/-- The body of server.py handle_call_tool (lines 199-457): the name-dispatch
chain, before the top-level except clauses. -/
def callToolBody (ctx : Gctx) (name : String) (args : Option PyFields) :
    Except PyErr (List Content) :=
  if name = "hubspot_create_contact" then
    createContactBranch ctx args
  else if name = "hubspot_create_company" then
    createCompanyBranch ctx args
  else if name = "hubspot_get_company_activity" then
    match args with
    | some (PyFields.cons k0 v0 rest) =>
      (match dictIndex (PyFields.cons k0 v0 rest) "company_id" with
       | Except.error e => Except.error e
       | Except.ok cid =>
           Except.ok [Content.text (get_company_activity ctx.env ctx.off cid)])
    | _ => Except.error (PyErr.other "Missing arguments for get_company_activity")
  else if name = "hubspot_get_recent_engagements" then
    match optIntArg args "days" 7 with
    | Except.error e => Except.error e
    | Except.ok days =>
      match optIntArg args "limit" 50 with
      | Except.error e => Except.error e
      | Except.ok limit =>
          Except.ok [Content.text (get_recent_engagements ctx.env ctx.off ctx.nowUs days limit)]
  else if name = "hubspot_get_active_companies" then
    match optIntArg args "limit" 10 with
    | Except.error e => Except.error e
    | Except.ok limit =>
        Except.ok [Content.text (get_recent_companies ctx.env ctx.off limit)]
  else if name = "hubspot_get_active_contacts" then
    match optIntArg args "limit" 10 with
    | Except.error e => Except.error e
    | Except.ok limit =>
        Except.ok [Content.text (get_recent_contacts ctx.env ctx.off limit)]
  else if name = "hubspot_conversations_recent" then
    match optIntArg args "limit" 10 with
    | Except.error e => Except.error e
    | Except.ok limit =>
        Except.ok [Content.text (get_recent_conversations ctx.env ctx.off limit)]
  else if name = "hubspot_conversations_inboxes" then
    match optIntArg args "limit" 10 with
    | Except.error e => Except.error e
    | Except.ok limit =>
      match ctx.conv.get_inboxes limit with
      | Except.error e => Except.error e
      | Except.ok v =>
        match jsonDumpsE v with
        | Except.error e => Except.error e
        | Except.ok s => Except.ok [Content.text s]
  else if name = "hubspot_conversations_channels_for_inbox" then
    match argLookup args "inbox_id" with
    | some v =>
      (match ctx.conv.get_channels_for_inbox v with
       | Except.error e => Except.error e
       | Except.ok c =>
         match jsonDumpsE c with
         | Except.error e => Except.error e
         | Except.ok s => Except.ok [Content.text s])
    | Option.none => Except.error (PyErr.other "Missing inbox_id argument")
  else if name = "hubspot_conversations_all_channels" then
    match ctx.conv.get_all_channels with
    | Except.error e => Except.error e
    | Except.ok c =>
      match jsonDumpsE c with
      | Except.error e => Except.error e
      | Except.ok s => Except.ok [Content.text s]
  else if name = "hubspot_conversations_threads_for_inbox" then
    match args with
    | some d =>
      (match d.lookup "inbox_id" with
       | some v =>
         (match fieldsIntArg d "limit" 10 with
          | Except.error e => Except.error e
          | Except.ok limit =>
            match ctx.conv.get_threads_for_inbox v limit with
            | Except.error e => Except.error e
            | Except.ok t =>
              match jsonDumpsE t with
              | Except.error e => Except.error e
              | Except.ok s => Except.ok [Content.text s])
       | Option.none => Except.error (PyErr.other "Missing inbox_id argument"))
    | Option.none => Except.error (PyErr.other "Missing inbox_id argument")
  else if name = "hubspot_conversations_threads_for_channel" then
    match args with
    | some d =>
      (match d.lookup "channel_id" with
       | some v =>
         (match fieldsIntArg d "limit" 10 with
          | Except.error e => Except.error e
          | Except.ok limit =>
            match ctx.conv.get_threads_for_channel v limit with
            | Except.error e => Except.error e
            | Except.ok t =>
              match jsonDumpsE t with
              | Except.error e => Except.error e
              | Except.ok s => Except.ok [Content.text s])
       | Option.none => Except.error (PyErr.other "Missing channel_id argument"))
    | Option.none => Except.error (PyErr.other "Missing channel_id argument")
  else if name = "hubspot_conversations_thread_messages" then
    match args with
    | some d =>
      (match d.lookup "thread_id" with
       | some v =>
         (match fieldsIntArg d "limit" 10 with
          | Except.error e => Except.error e
          | Except.ok limit =>
            match ctx.conv.get_thread_messages v limit with
            | Except.error e => Except.error e
            | Except.ok t =>
              match jsonDumpsE t with
              | Except.error e => Except.error e
              | Except.ok s => Except.ok [Content.text s])
       | Option.none => Except.error (PyErr.other "Missing thread_id argument"))
    | Option.none => Except.error (PyErr.other "Missing thread_id argument")
  else if name = "hubspot_conversations_thread_latest_message" then
    match argLookup args "thread_id" with
    | some v =>
      (match ctx.conv.get_thread_latest_message v with
       | Except.error e => Except.error e
       | Except.ok t =>
         match jsonDumpsE t with
         | Except.error e => Except.error e
         | Except.ok s => Except.ok [Content.text s])
    | Option.none => Except.error (PyErr.other "Missing thread_id argument")
  else
    Except.error (PyErr.other ("Unknown tool: " ++ name))

/-- server.py handle_call_tool with its top-level except clauses (lines
459-462): ApiException and every other exception each become a single text
content item. -/
def handle_call_tool (ctx : Gctx) (name : String) (args : Option PyFields) :
    List Content :=
  match callToolBody ctx name args with
  | Except.ok r => r
  | Except.error (PyErr.api m) => [Content.text ("HubSpot API error: " ++ m)]
  | Except.error (PyErr.other m) => [Content.text ("Error: " ++ m)]

/-- Well-formedness of a strftime %z rendering: a sign followed by four
digits, e.g. "+0800" or "-0500".  This is the contract of the strftime
call whose result client.py line 23 slices. -/
def isZOffset (off : String) : Bool :=
  match off.data with
  | [c, a, b, x, y] =>
      (c == '+' || c == '-') && a.isDigit && b.isDigit && x.isDigit && y.isDigit
  | _ => false

/-- A string of the shape UTC±HH:MM, the form the spec requires for a
normalized timezone value. -/
def isUTCForm (s : String) : Bool :=
  match s.data with
  | ['U', 'T', 'C', c, a, b, ':', x, y] =>
      (c == '+' || c == '-') && a.isDigit && b.isDigit && x.isDigit && y.isDigit
  | _ => false

/-- Modelled from the spec: the since parameter claimed for the engagement
window query, "int((now - timedelta(days)).timestamp() * 1000)", with the
current time carried as nowUs microseconds since the epoch, so that
timestamp() is exactly nowUs / 10^6 seconds and int() truncates toward
zero. -/
def claimSinceMs (nowUs days : Int) : Int :=
  Int.tdiv (nowUs - days * 86400000000) 1000

def isDictVal : PyVal → Bool
  | PyVal.dict _ => true
  | _ => false

def allDicts (l : List PyVal) : Bool := l.all isDictVal

def isListOfDicts : PyVal → Bool
  | PyVal.list xs => allDicts xs.toList
  | _ => false

/-- Well-typedness of an EMAIL engagement metadata dict: the optional from and
sender substructures are dicts when present, and to/cc/bcc are lists of dicts
when present.  On anything else the Python source would raise inside the
formatting loop rather than produce a record. -/
def emailMetaOK (md : PyFields) : Bool :=
  isDictVal (md.getD "from" emptyDict) && isDictVal (md.getD "sender" emptyDict) &&
  isListOfDicts (md.getD "to" emptyList) && isListOfDicts (md.getD "cc" emptyList) &&
  isListOfDicts (md.getD "bcc" emptyList)

/-- Well-typedness of a conversation record's associatedObjects field as read
by processConversation. -/
def convOK (cf : PyFields) : Bool :=
  match cf.getD "associatedObjects" emptyDict with
  | PyVal.dict ao =>
      isListOfDicts (ao.getD "contacts" emptyList) &&
      isListOfDicts (ao.getD "companies" emptyList)
  | _ => false

/-- A baseline upstream platform used to instantiate theorems: searches and
api requests fail, creates and associations succeed trivially. -/
def envK : Upstream :=
  { search_contacts := fun _ => Except.error (PyErr.other "down"),
    search_companies := fun _ => Except.error (PyErr.other "down"),
    create_contact := fun _ => Except.ok emptyDict,
    create_company := fun _ => Except.ok emptyDict,
    assoc_page := fun _ _ _ _ => Except.ok [],
    api_request := fun _ => Except.error (PyErr.api "down") }

/-- Baseline spec-modelled conversation sub-operations. -/
def convK : ConvOps :=
  { get_inboxes := fun _ => Except.ok emptyList,
    get_channels_for_inbox := fun _ => Except.ok emptyList,
    get_all_channels := Except.ok emptyList,
    get_threads_for_inbox := fun _ _ => Except.ok emptyList,
    get_threads_for_channel := fun _ _ => Except.ok emptyList,
    get_thread_messages := fun _ _ => Except.ok emptyList,
    get_thread_latest_message := fun _ => Except.ok emptyDict }

def ctxK : Gctx := { env := envK, conv := convK, off := "+0000", nowUs := 0 }

def sampleContact : PyVal := PyVal.dict (PyFields.cons "id" (PyVal.str "101") PyFields.nil)

/-- An upstream whose idempotency searches report one existing match. -/
def envMatch : Upstream :=
  { envK with
    search_contacts := fun _ => Except.ok { total := 1, results := [sampleContact] },
    search_companies := fun _ => Except.ok { total := 1, results := [sampleContact] } }

/-- An upstream whose idempotency searches report no match and whose creates
echo the properties they were given. -/
def envNoMatch : Upstream :=
  { envK with
    search_contacts := fun _ => Except.ok { total := 0, results := [] },
    search_companies := fun _ => Except.ok { total := 0, results := [] },
    create_contact := fun p => Except.ok (PyVal.dict p),
    create_company := fun p => Except.ok (PyVal.dict p) }

def ctxMatch : Gctx := { ctxK with env := envMatch }

def ctxNoMatch : Gctx := { ctxK with env := envNoMatch }

def resultsWrap (v : PyVal) : PyVal :=
  PyVal.dict (PyFields.cons "results" v PyFields.nil)

def oneInbox : PyVal := PyVal.dict (PyFields.cons "id" (PyVal.str "i1") PyFields.nil)

def oneChannel : PyVal := PyVal.dict (PyFields.cons "id" (PyVal.str "c1") PyFields.nil)

/-- An upstream for which the inboxes fetch yields one inbox, the per-inbox
channel-accounts fetch raises ApiException "boom", and every other api request
yields an empty results page. -/
def cenvConv : Upstream :=
  { envK with api_request := fun req =>
      if req.path = "/conversations/v3/conversations/channel-accounts" then
        Except.error (PyErr.api "boom")
      else if req.path = "/conversations/v3/conversations/inboxes" then
        Except.ok (resultsWrap (PyVal.list (PyList.cons oneInbox PyList.nil)))
      else
        Except.ok (resultsWrap emptyList) }

/-- An upstream for which the per-inbox channel-accounts fetch yields one
channel, the per-inbox conversations fetch raises, and every other api
request yields an empty results page. -/
def cenv8 : Upstream :=
  { envK with api_request := fun req =>
      if req.path = "/conversations/v3/conversations/channel-accounts" then
        Except.ok (resultsWrap (PyVal.list (PyList.cons oneChannel PyList.nil)))
      else if req.path = "/conversations/v3/conversations" then
        Except.error (PyErr.api "convdown")
      else
        Except.ok (resultsWrap emptyList) }

mutual

theorem convert_idem (off : String) :
    (v : PyVal) → convert_datetime_fields off (convert_datetime_fields off v) =
      convert_datetime_fields off v
  | PyVal.dict fs => by
      simp [convert_datetime_fields, convertFields_idem off fs]
  | PyVal.list xs => by
      simp [convert_datetime_fields, convertList_idem off xs]
  | PyVal.dt _ => rfl
  | PyVal.tzl => rfl
  | PyVal.str _ => rfl
  | PyVal.int _ => rfl
  | PyVal.bool _ => rfl
  | PyVal.none => rfl

theorem convertFields_idem (off : String) :
    (fs : PyFields) → convertFields off (convertFields off fs) = convertFields off fs
  | PyFields.nil => rfl
  | PyFields.cons k v xs => by
      simp [convertFields, convert_idem off v, convertFields_idem off xs]

theorem convertList_idem (off : String) :
    (xs : PyList) → convertList off (convertList off xs) = convertList off xs
  | PyList.nil => rfl
  | PyList.cons x xs => by
      simp [convertList, convert_idem off x, convertList_idem off xs]

end

mutual

theorem convert_id (off : String) :
    (v : PyVal) → noTemporal v = true → convert_datetime_fields off v = v
  | PyVal.dict fs, h => by
      simp [noTemporal] at h
      simp [convert_datetime_fields, convertFields_id off fs h]
  | PyVal.list xs, h => by
      simp [noTemporal] at h
      simp [convert_datetime_fields, convertList_id off xs h]
  | PyVal.dt _, h => by simp [noTemporal] at h
  | PyVal.tzl, h => by simp [noTemporal] at h
  | PyVal.str _, _ => rfl
  | PyVal.int _, _ => rfl
  | PyVal.bool _, _ => rfl
  | PyVal.none, _ => rfl

theorem convertFields_id (off : String) :
    (fs : PyFields) → noTemporalFields fs = true → convertFields off fs = fs
  | PyFields.nil, _ => rfl
  | PyFields.cons k v xs, h => by
      simp [noTemporalFields] at h
      simp [convertFields, convert_id off v h.1, convertFields_id off xs h.2]

theorem convertList_id (off : String) :
    (xs : PyList) → noTemporalList xs = true → convertList off xs = xs
  | PyList.nil, _ => rfl
  | PyList.cons x xs, h => by
      simp [noTemporalList] at h
      simp [convertList, convert_id off x h.1, convertList_id off xs h.2]

end

mutual

theorem noTemporal_convert (off : String) :
    (v : PyVal) → noTemporal (convert_datetime_fields off v) = true
  | PyVal.dict fs => by
      simp [convert_datetime_fields, noTemporal, noTemporalFields_convert off fs]
  | PyVal.list xs => by
      simp [convert_datetime_fields, noTemporal, noTemporalList_convert off xs]
  | PyVal.dt _ => rfl
  | PyVal.tzl => rfl
  | PyVal.str _ => rfl
  | PyVal.int _ => rfl
  | PyVal.bool _ => rfl
  | PyVal.none => rfl

theorem noTemporalFields_convert (off : String) :
    (fs : PyFields) → noTemporalFields (convertFields off fs) = true
  | PyFields.nil => rfl
  | PyFields.cons k v xs => by
      simp [convertFields, noTemporalFields, noTemporal_convert off v,
            noTemporalFields_convert off xs]

theorem noTemporalList_convert (off : String) :
    (xs : PyList) → noTemporalList (convertList off xs) = true
  | PyList.nil => rfl
  | PyList.cons x xs => by
      simp [convertList, noTemporalList, noTemporal_convert off x,
            noTemporalList_convert off xs]

end

mutual

theorem toJson_some_of_noTemporal :
    (v : PyVal) → noTemporal v = true → (toJson v).isSome = true
  | PyVal.dict fs, h => by
      simp [noTemporal] at h
      obtain ⟨ps, hps⟩ := toJsonFields_some fs h
      simp [toJson, hps]
  | PyVal.list xs, h => by
      simp [noTemporal] at h
      obtain ⟨ps, hps⟩ := toJsonList_some xs h
      simp [toJson, hps]
  | PyVal.dt _, h => by simp [noTemporal] at h
  | PyVal.tzl, h => by simp [noTemporal] at h
  | PyVal.str _, _ => rfl
  | PyVal.int _, _ => rfl
  | PyVal.bool _, _ => rfl
  | PyVal.none, _ => rfl

theorem toJsonList_some :
    (xs : PyList) → noTemporalList xs = true → ∃ ps, toJsonList xs = some ps
  | PyList.nil, _ => ⟨[], rfl⟩
  | PyList.cons x xs, h => by
      simp [noTemporalList] at h
      have hv := toJson_some_of_noTemporal x h.1
      obtain ⟨ps, hps⟩ := toJsonList_some xs h.2
      cases hs : toJson x with
      | none => rw [hs] at hv; simp at hv
      | some s => exact ⟨s :: ps, by simp [toJsonList, hs, hps]⟩

theorem toJsonFields_some :
    (fs : PyFields) → noTemporalFields fs = true → ∃ ps, toJsonFields fs = some ps
  | PyFields.nil, _ => ⟨[], rfl⟩
  | PyFields.cons k v xs, h => by
      simp [noTemporalFields] at h
      have hv := toJson_some_of_noTemporal v h.1
      obtain ⟨ps, hps⟩ := toJsonFields_some xs h.2
      cases hs : toJson v with
      | none => rw [hs] at hv; simp at hv
      | some s =>
          exact ⟨("\"" ++ jsonEscape k ++ "\": " ++ s) :: ps,
            by simp [toJsonFields, hs, hps]⟩

end

theorem keys_convertFields (off : String) :
    (fs : PyFields) → (convertFields off fs).keys = fs.keys
  | PyFields.nil => rfl
  | PyFields.cons k v xs => by
      simp [convertFields, PyFields.keys, keys_convertFields off xs]

theorem length_convertList (off : String) :
    (xs : PyList) → (convertList off xs).toList.length = xs.toList.length
  | PyList.nil => rfl
  | PyList.cons x xs => by
      simp [convertList, PyList.toList, length_convertList off xs]

theorem isUTCForm_tzRender (off : String) (h : isZOffset off = true) :
    isUTCForm (tzRender off) = true := by
  cases off with
  | mk l =>
    match l, h with
    | [c, a, b, x, y], h =>
      simp [isZOffset] at h
      have hdata : (tzRender (String.mk [c, a, b, x, y])).data =
          'U' :: 'T' :: 'C' :: c :: a :: b :: ':' :: x :: y :: [] := rfl
      unfold isUTCForm
      rw [hdata]
      simp_all

/-- C6: convert_datetime_fields replaces every datetime value with its
ISO-8601 string and every tzlocal value with a string of the form UTC±HH:MM
(given a well-formed %z rendering of the local zone); the result holds no
remaining datetime or tzlocal value and is therefore directly JSON-encodable,
while dict key sets and list lengths are preserved in place. -/
theorem convert_datetime_fields_normalizes (off : String) (v : PyVal) (iso : String) :
    noTemporal (convert_datetime_fields off v) = true ∧
    (toJson (convert_datetime_fields off v)).isSome = true ∧
    convert_datetime_fields off (PyVal.dt iso) = PyVal.str iso ∧
    (isZOffset off = true →
      convert_datetime_fields off PyVal.tzl = PyVal.str (tzRender off) ∧
      isUTCForm (tzRender off) = true) ∧
    (∀ fs : PyFields, (convertFields off fs).keys = fs.keys) ∧
    (∀ xs : PyList, (convertList off xs).toList.length = xs.toList.length) := by
  refine ⟨noTemporal_convert off v,
          toJson_some_of_noTemporal _ (noTemporal_convert off v),
          rfl,
          fun h => ⟨rfl, isUTCForm_tzRender off h⟩,
          keys_convertFields off,
          length_convertList off⟩

/-- Witness for convert_datetime_fields_normalizes at a concrete tree and the
concrete offset "+0800". -/
theorem convert_datetime_fields_normalizes_witness :
    isZOffset "+0800" = true ∧
    noTemporal (convert_datetime_fields "+0800"
      (PyVal.dict (PyFields.cons "when" (PyVal.dt "2024-01-02T03:04:05")
        (PyFields.cons "zone" PyVal.tzl PyFields.nil)))) = true ∧
    convert_datetime_fields "+0800" PyVal.tzl = PyVal.str (tzRender "+0800") ∧
    isUTCForm (tzRender "+0800") = true := by
  have h := convert_datetime_fields_normalizes "+0800"
    (PyVal.dict (PyFields.cons "when" (PyVal.dt "2024-01-02T03:04:05")
      (PyFields.cons "zone" PyVal.tzl PyFields.nil))) "2024-01-02T03:04:05"
  have hz : isZOffset "+0800" = true := by decide
  exact ⟨hz, h.1, (h.2.2.2.1 hz).1, (h.2.2.2.1 hz).2⟩

/-- C10: convert_datetime_fields is idempotent, and on a tree with no
datetime or tzlocal value it is the identity (so every dict keeps its key
set, every list its length and element order, and every other scalar is
returned unchanged). -/
theorem convert_datetime_fields_idempotent (off : String) (v : PyVal) :
    convert_datetime_fields off (convert_datetime_fields off v) =
      convert_datetime_fields off v ∧
    (noTemporal v = true → convert_datetime_fields off v = v) := by
  exact ⟨convert_idem off v, convert_id off v⟩

/-- Witness for convert_datetime_fields_idempotent at a concrete
temporal-free tree. -/
theorem convert_datetime_fields_idempotent_witness :
    noTemporal (PyVal.dict (PyFields.cons "a" (PyVal.int 3)
      (PyFields.cons "b" (PyVal.list (PyList.cons (PyVal.str "x") PyList.nil))
        PyFields.nil))) = true ∧
    convert_datetime_fields "+0000"
      (PyVal.dict (PyFields.cons "a" (PyVal.int 3)
        (PyFields.cons "b" (PyVal.list (PyList.cons (PyVal.str "x") PyList.nil))
          PyFields.nil))) =
      PyVal.dict (PyFields.cons "a" (PyVal.int 3)
        (PyFields.cons "b" (PyVal.list (PyList.cons (PyVal.str "x") PyList.nil))
          PyFields.nil)) := by
  refine ⟨rfl, ?_⟩
  exact (convert_datetime_fields_idempotent "+0000" _).2 rfl

theorem exc_bind_ok {A B : Type} (a : A) (f : A → Except PyErr B) :
    (Except.ok a : Except PyErr A) >>= f = f a := rfl

theorem exc_bind_err {A B : Type} (e : PyErr) (f : A → Except PyErr B) :
    (Except.error e : Except PyErr A) >>= f = (Except.error e : Except PyErr B) := rfl

theorem exc_pure {A : Type} (a : A) : (pure a : Except PyErr A) = Except.ok a := rfl

/-- C9: the engagement window request that get_recent_engagements sends
carries since = int((now - timedelta(days=days)).timestamp() * 1000) in
millisecond epoch time, count = limit and offset = 0 on the recent-modified
path, and the operation consults the upstream only through that request. -/
theorem recent_engagements_window (nowUs days limit : Int) :
    (recentEngagementsReq nowUs days limit).params.lookup "since" =
      some (PyVal.int (claimSinceMs nowUs days)) ∧
    (recentEngagementsReq nowUs days limit).params.lookup "count" =
      some (PyVal.int limit) ∧
    (recentEngagementsReq nowUs days limit).params.lookup "offset" =
      some (PyVal.int 0) ∧
    (recentEngagementsReq nowUs days limit).path =
      "/engagements/v1/engagements/recent/modified" ∧
    (∀ (env1 env2 : Upstream) (off : String),
      env1.api_request (recentEngagementsReq nowUs days limit) =
        env2.api_request (recentEngagementsReq nowUs days limit) →
      get_recent_engagements env1 off nowUs days limit =
        get_recent_engagements env2 off nowUs days limit) := by
  refine ⟨rfl, rfl, rfl, rfl, ?_⟩
  intro env1 env2 off h
  simp only [get_recent_engagements, h]

/-- Witness for recent_engagements_window at a concrete clock value and two
identical upstreams. -/
theorem recent_engagements_window_witness :
    (recentEngagementsReq 1700000000000000 7 50).params.lookup "since" =
      some (PyVal.int (claimSinceMs 1700000000000000 7)) ∧
    get_recent_engagements envK "+0000" 1700000000000000 7 50 =
      get_recent_engagements envK "+0000" 1700000000000000 7 50 :=
  ⟨(recent_engagements_window 1700000000000000 7 50).1,
   (recent_engagements_window 1700000000000000 7 50).2.2.2.2 envK envK "+0000" rfl⟩

/-- C7 counterexample: with upstream cenvConv the per-inbox channel-accounts
sub-fetch inside get_recent_conversations raises ApiException "boom", yet the
operation does not return the error payload for it -- it returns the formatted
inbox page with an empty channels list instead. -/
theorem operations_error_payload_counterexample :
    cenvConv.api_request (channelsReq (PyVal.str "i1")) =
      Except.error (PyErr.api "boom") ∧
    get_recent_conversations cenvConv "+0000" 10 ≠ errJson "boom" := by
  exact ⟨rfl, by decide⟩

/-- C7 (amended): every access-layer operation turns an upstream exception
that reaches its top-level handler into the json payload of an error record
with str(e) as message, and raises nothing: this covers any failure of the
single upstream call of get_recent_companies, get_recent_contacts,
get_recent_engagements and get_channel_accounts, of either upstream stage of
get_company_activity, and of the top-level inboxes fetch of
get_recent_conversations; per-inbox and per-conversation sub-fetch failures
inside get_recent_conversations are instead contained (see the partial
failure theorem) and never produce the error payload. -/
theorem operations_error_payload :
    (∀ (env : Upstream) (off : String) (limit : Int) (e : PyErr),
      env.search_companies (companiesSearchReq limit) = Except.error e →
      get_recent_companies env off limit = errJson e.msg) ∧
    (∀ (env : Upstream) (off : String) (limit : Int) (e : PyErr),
      env.search_contacts (contactsSearchReq limit) = Except.error e →
      get_recent_contacts env off limit = errJson e.msg) ∧
    (∀ (env : Upstream) (off : String) (cid : PyVal) (e : PyErr),
      env.assoc_page "companies" cid "engagements" 500 = Except.error e →
      get_company_activity env off cid = errJson e.msg) ∧
    (∀ (env : Upstream) (off : String) (cid : PyVal) (a : AssocResult)
        (rest : List AssocResult) (e : PyErr),
      env.assoc_page "companies" cid "engagements" 500 = Except.ok (a :: rest) →
      env.api_request (engDetailReq a.to_object_id) = Except.error e →
      get_company_activity env off cid = errJson e.msg) ∧
    (∀ (env : Upstream) (off : String) (nowUs days limit : Int) (e : PyErr),
      env.api_request (recentEngagementsReq nowUs days limit) = Except.error e →
      get_recent_engagements env off nowUs days limit = errJson e.msg) ∧
    (∀ (env : Upstream) (off : String) (e : PyErr),
      env.api_request channelAccountsReq = Except.error e →
      get_channel_accounts env off = errJson e.msg) ∧
    (∀ (env : Upstream) (off : String) (limit : Int) (e : PyErr),
      env.api_request (inboxesReq limit) = Except.error e →
      get_recent_conversations env off limit = errJson e.msg) := by
  refine ⟨?_, ?_, ?_, ?_, ?_, ?_, ?_⟩
  · intro env off limit e h
    simp only [get_recent_companies, h]
  · intro env off limit e h
    simp only [get_recent_contacts, h]
  · intro env off cid e h
    simp only [get_company_activity, h]
    rfl
  · intro env off cid a rest e h1 h2
    simp only [get_company_activity, h1, exc_bind_ok, List.map_cons, mapME, h2]
    rfl
  · intro env off nowUs days limit e h
    simp only [get_recent_engagements, h]
    rfl
  · intro env off e h
    simp only [get_channel_accounts, h]
    rfl
  · intro env off limit e h
    simp only [get_recent_conversations, h]
    rfl

/-- Witness for operations_error_payload at the baseline failing upstream. -/
theorem operations_error_payload_witness :
    get_recent_companies envK "+0000" 10 = errJson "down" ∧
    get_recent_conversations envK "+0000" 10 = errJson "down" :=
  ⟨(operations_error_payload).1 envK "+0000" 10 (PyErr.other "down") rfl,
   (operations_error_payload).2.2.2.2.2.2 envK "+0000" 10 (PyErr.api "down") rfl⟩

theorem mapM_dicts_ok (f : PyVal → Except PyErr PyVal)
    (hf : ∀ fs : PyFields, ∃ w, f (PyVal.dict fs) = Except.ok w) :
    ∀ l : List PyVal, allDicts l = true →
      ∃ ys : List PyVal, mapME f l = Except.ok ys ∧ ys.length = l.length := by
  intro l
  induction l with
  | nil => exact fun _ => ⟨[], rfl, rfl⟩
  | cons x xs ih =>
    intro h
    simp only [allDicts, List.all_cons, Bool.and_eq_true] at h
    obtain ⟨hx, hxs⟩ := h
    match x, hx with
    | PyVal.dict fs, _ =>
      obtain ⟨w, hw⟩ := hf fs
      obtain ⟨ys, hys, hlen⟩ := ih hxs
      refine ⟨w :: ys, ?_, by simp [hlen]⟩
      simp [mapME, hw, hys]

theorem ofList_ne_nil (ys : List PyVal) (h : ys ≠ []) :
    PyList.ofList ys ≠ PyList.nil := by
  cases ys with
  | nil => exact absurd rfl h
  | cons a l => simp [PyList.ofList]

theorem processConversation_congr (env1 env2 : Upstream) (conv : PyVal)
    (h : ∀ v, env1.api_request (messagesReq v) = env2.api_request (messagesReq v)) :
    processConversation env1 conv = processConversation env2 conv := by
  simp only [processConversation, h]


theorem isListOfDicts_elim (v : PyVal) (h : isListOfDicts v = true) :
    ∃ xs, v = PyVal.list xs ∧ allDicts xs.toList = true :=
  match v, h with
  | PyVal.list xs, h => ⟨xs, rfl, by simpa [isListOfDicts] using h⟩

theorem convOK_elim (cf : PyFields) (h : convOK cf = true) :
    ∃ ao, cf.getD "associatedObjects" emptyDict = PyVal.dict ao ∧
      isListOfDicts (ao.getD "contacts" emptyList) = true ∧
      isListOfDicts (ao.getD "companies" emptyList) = true := by
  rcases hv : cf.getD "associatedObjects" emptyDict with s | n | b | _ | iso | _ | xs | ao
  case str => simp [convOK, hv] at h
  case int => simp [convOK, hv] at h
  case bool => simp [convOK, hv] at h
  case none => simp [convOK, hv] at h
  case dt => simp [convOK, hv] at h
  case tzl => simp [convOK, hv] at h
  case list => simp [convOK, hv] at h
  case dict =>
    simp only [convOK, hv, Bool.and_eq_true] at h
    exact ⟨ao, rfl, h.1, h.2⟩

/-- C8: partial failure containment in get_recent_conversations.  (1) For one
inbox, a failed conversations sub-fetch with a successful non-empty channels
sub-fetch yields a record with the fetched non-empty channels list and an
empty conversations list.  (2) A failed messages sub-fetch empties only that
conversation\'s messages list.  (3) A conversation\'s record depends on the
upstream only through the messages requests, and (4) an inbox\'s record only
through its own channels/conversations requests and the messages requests, so
failures injected at another inbox\'s requests leave it unchanged.  (5) The
operation processes each fetched inbox independently through processInbox. -/
theorem conversations_partial_failure :
    (∀ (env : Upstream) (limit : Int) (ib cd : PyFields) (cs : PyList) (e : PyErr),
      env.api_request (channelsReq (ib.getD "id" PyVal.none)) =
        Except.ok (PyVal.dict cd) →
      cd.getD "results" emptyList = PyVal.list cs →
      allDicts cs.toList = true →
      cs ≠ PyList.nil →
      env.api_request (convosReq (ib.getD "id" PyVal.none) limit) = Except.error e →
      ∃ out chs, processInbox env limit (PyVal.dict ib) = Except.ok (PyVal.dict out) ∧
        out.lookup "channels" = some (PyVal.list chs) ∧ chs ≠ PyList.nil ∧
        out.lookup "conversations" = some (PyVal.list PyList.nil)) ∧
    (∀ (env : Upstream) (cf : PyFields) (e : PyErr),
      convOK cf = true →
      env.api_request (messagesReq (cf.getD "id" PyVal.none)) = Except.error e →
      ∃ out, processConversation env (PyVal.dict cf) = Except.ok (PyVal.dict out) ∧
        out.lookup "messages" = some (PyVal.list PyList.nil)) ∧
    (∀ (env1 env2 : Upstream) (conv : PyVal),
      (∀ v, env1.api_request (messagesReq v) = env2.api_request (messagesReq v)) →
      processConversation env1 conv = processConversation env2 conv) ∧
    (∀ (env1 env2 : Upstream) (limit : Int) (ib : PyFields),
      env1.api_request (channelsReq (ib.getD "id" PyVal.none)) =
        env2.api_request (channelsReq (ib.getD "id" PyVal.none)) →
      env1.api_request (convosReq (ib.getD "id" PyVal.none) limit) =
        env2.api_request (convosReq (ib.getD "id" PyVal.none) limit) →
      (∀ v, env1.api_request (messagesReq v) = env2.api_request (messagesReq v)) →
      processInbox env1 limit (PyVal.dict ib) = processInbox env2 limit (PyVal.dict ib)) ∧
    (∀ (env : Upstream) (off : String) (limit : Int) (rd : PyFields)
        (ibs : PyList) (outs : List PyVal),
      env.api_request (inboxesReq limit) = Except.ok (PyVal.dict rd) →
      rd.getD "results" emptyList = PyVal.list ibs →
      mapME (processInbox env limit) ibs.toList = Except.ok outs →
      get_recent_conversations env off limit =
        jsonOut (convert_datetime_fields off (PyVal.list (PyList.ofList outs)))) := by
  refine ⟨?_, ?_, ?_, ?_, ?_⟩
  · intro env limit ib cd cs e hch hres hall hne hcv
    obtain ⟨ys, hys, hlen⟩ :=
      mapM_dicts_ok formatChannel (fun fs => ⟨_, rfl⟩) cs.toList hall
    have hysne : ys ≠ [] := by
      intro hy
      apply hne
      cases cs with
      | nil => rfl
      | cons a l => rw [hy] at hlen; simp [PyList.toList] at hlen
    refine ⟨PyFields.ofList
      [("id", ib.getD "id" PyVal.none), ("type", ib.getD "type" PyVal.none),
       ("name", ib.getD "name" PyVal.none),
       ("created_at", ib.getD "createdAt" PyVal.none),
       ("updated_at", ib.getD "updatedAt" PyVal.none),
       ("archived", ib.getD "archived" PyVal.none),
       ("archived_at", ib.getD "archivedAt" PyVal.none),
       ("channels", PyVal.list (PyList.ofList ys)),
       ("conversations", PyVal.list (PyList.ofList []))],
      PyList.ofList ys, ?_, ?_, ofList_ne_nil ys hysne, ?_⟩
    · simp only [processInbox, pyGet, exc_bind_ok, hch, hres, pyIter, hys, hcv,
        exc_pure]
      rfl
    · rfl
    · rfl
  · intro env cf e hok hm
    obtain ⟨ao, hao, h1, h2⟩ := convOK_elim cf hok
    obtain ⟨xs, hct, hxs⟩ := isListOfDicts_elim _ h1
    obtain ⟨zs, hco, hzs⟩ := isListOfDicts_elim _ h2
    obtain ⟨ys1, hys1, _⟩ :=
      mapM_dicts_ok formatAssociatedObject (fun fs => ⟨_, rfl⟩) xs.toList hxs
    obtain ⟨ys2, hys2, _⟩ :=
      mapM_dicts_ok formatAssociatedObject (fun fs => ⟨_, rfl⟩) zs.toList hzs
    refine ⟨PyFields.ofList
      [("id", cf.getD "id" PyVal.none), ("type", cf.getD "type" PyVal.none),
       ("status", cf.getD "status" PyVal.none),
       ("created_time", cf.getD "createdTime" PyVal.none),
       ("last_updated_time", cf.getD "updatedTime" PyVal.none),
       ("subject", cf.getD "subject" (PyVal.str "")),
       ("associated_contacts", PyVal.list (PyList.ofList ys1)),
       ("associated_companies", PyVal.list (PyList.ofList ys2)),
       ("messages", PyVal.list (PyList.ofList []))], ?_, ?_⟩
    · simp only [processConversation, pyGet, exc_bind_ok, hao, hct, hco, pyIter,
        hys1, hys2, hm, exc_pure]
      rfl
    · rfl
  · intro env1 env2 conv h
    simp only [processConversation, h]
  · intro env1 env2 limit ib h1 h2 h3
    have hpc : processConversation env1 = processConversation env2 :=
      funext fun c => processConversation_congr env1 env2 c h3
    simp only [processInbox, pyGet, exc_bind_ok, h1, h2, hpc]
  · intro env off limit rd ibs outs h1 h2 h3
    simp only [get_recent_conversations, h1, exc_bind_ok, pyGet, h2, pyIter, h3,
      exc_pure]

/-- Witness for conversations_partial_failure: the conversations request for
inbox i1 fails under cenv8, and the decomposition conjunct evaluated at a
concrete upstream with an empty inbox page. -/
theorem conversations_partial_failure_witness :
    cenv8.api_request (convosReq (PyVal.str "i1") 10) =
      Except.error (PyErr.api "convdown") ∧
    get_recent_conversations cenv8 "+0000" 10 =
      jsonOut (convert_datetime_fields "+0000" (PyVal.list (PyList.ofList []))) :=
  ⟨rfl, (conversations_partial_failure).2.2.2.2 cenv8 "+0000" 10
    (PyFields.cons "results" emptyList PyFields.nil) PyList.nil [] rfl rfl rfl⟩

theorem createContactBranch_shape (ctx : Gctx) (args : Option PyFields)
    (r : List Content) (h : createContactBranch ctx args = Except.ok r) :
    ∃ s, r = [Content.text s] := by
  rcases args with _ | d
  · simp [createContactBranch] at h
  · cases d with
    | nil => simp [createContactBranch] at h
    | cons k0 v0 rest =>
      simp only [createContactBranch] at h
      repeat' split at h
      all_goals first
        | (cases h; exact ⟨_, rfl⟩)
        | cases h

theorem createCompanyBranch_shape (ctx : Gctx) (args : Option PyFields)
    (r : List Content) (h : createCompanyBranch ctx args = Except.ok r) :
    ∃ s, r = [Content.text s] := by
  rcases args with _ | d
  · simp [createCompanyBranch] at h
  · cases d with
    | nil => simp [createCompanyBranch] at h
    | cons k0 v0 rest =>
      simp only [createCompanyBranch] at h
      repeat' split at h
      all_goals first
        | (cases h; exact ⟨_, rfl⟩)
        | cases h

theorem callToolBody_shape (ctx : Gctx) (name : String) (args : Option PyFields)
    (r : List Content) (h : callToolBody ctx name args = Except.ok r) :
    ∃ s, r = [Content.text s] := by
  unfold callToolBody at h
  by_cases h1 : name = "hubspot_create_contact"
  · rw [if_pos h1] at h
    exact createContactBranch_shape ctx args r h
  rw [if_neg h1] at h
  by_cases h2 : name = "hubspot_create_company"
  · rw [if_pos h2] at h
    exact createCompanyBranch_shape ctx args r h
  rw [if_neg h2] at h
  by_cases h3 : name = "hubspot_get_company_activity"
  · rw [if_pos h3] at h
    repeat' split at h
    all_goals first | (cases h; exact ⟨_, rfl⟩) | cases h
  rw [if_neg h3] at h
  by_cases h4 : name = "hubspot_get_recent_engagements"
  · rw [if_pos h4] at h
    repeat' split at h
    all_goals first | (cases h; exact ⟨_, rfl⟩) | cases h
  rw [if_neg h4] at h
  by_cases h5 : name = "hubspot_get_active_companies"
  · rw [if_pos h5] at h
    repeat' split at h
    all_goals first | (cases h; exact ⟨_, rfl⟩) | cases h
  rw [if_neg h5] at h
  by_cases h6 : name = "hubspot_get_active_contacts"
  · rw [if_pos h6] at h
    repeat' split at h
    all_goals first | (cases h; exact ⟨_, rfl⟩) | cases h
  rw [if_neg h6] at h
  by_cases h7 : name = "hubspot_conversations_recent"
  · rw [if_pos h7] at h
    repeat' split at h
    all_goals first | (cases h; exact ⟨_, rfl⟩) | cases h
  rw [if_neg h7] at h
  by_cases h8 : name = "hubspot_conversations_inboxes"
  · rw [if_pos h8] at h
    repeat' split at h
    all_goals first | (cases h; exact ⟨_, rfl⟩) | cases h
  rw [if_neg h8] at h
  by_cases h9 : name = "hubspot_conversations_channels_for_inbox"
  · rw [if_pos h9] at h
    repeat' split at h
    all_goals first | (cases h; exact ⟨_, rfl⟩) | cases h
  rw [if_neg h9] at h
  by_cases h10 : name = "hubspot_conversations_all_channels"
  · rw [if_pos h10] at h
    repeat' split at h
    all_goals first | (cases h; exact ⟨_, rfl⟩) | cases h
  rw [if_neg h10] at h
  by_cases h11 : name = "hubspot_conversations_threads_for_inbox"
  · rw [if_pos h11] at h
    repeat' split at h
    all_goals first | (cases h; exact ⟨_, rfl⟩) | cases h
  rw [if_neg h11] at h
  by_cases h12 : name = "hubspot_conversations_threads_for_channel"
  · rw [if_pos h12] at h
    repeat' split at h
    all_goals first | (cases h; exact ⟨_, rfl⟩) | cases h
  rw [if_neg h12] at h
  by_cases h13 : name = "hubspot_conversations_thread_messages"
  · rw [if_pos h13] at h
    repeat' split at h
    all_goals first | (cases h; exact ⟨_, rfl⟩) | cases h
  rw [if_neg h13] at h
  by_cases h14 : name = "hubspot_conversations_thread_latest_message"
  · rw [if_pos h14] at h
    repeat' split at h
    all_goals first | (cases h; exact ⟨_, rfl⟩) | cases h
  rw [if_neg h14] at h
  cases h

/-- C1: for every tool name (known or unknown), every argument mapping
(absent, empty, missing, extra or wrongly typed fields) and every behaviour of
the upstream platform, handle_call_tool returns a list of exactly one text
content item; the dispatcher is a total function whose every failure path
lands in the top-level except clauses, so no exception reaches the caller. -/
theorem handle_call_tool_one_text (ctx : Gctx) (name : String)
    (args : Option PyFields) :
    ∃ s, handle_call_tool ctx name args = [Content.text s] := by
  cases hb : callToolBody ctx name args with
  | ok r =>
    obtain ⟨s, rfl⟩ := callToolBody_shape ctx name args r hb
    exact ⟨s, by simp [handle_call_tool, hb]⟩
  | error e =>
    cases e with
    | api m => exact ⟨"HubSpot API error: " ++ m, by simp [handle_call_tool, hb]⟩
    | other m => exact ⟨"Error: " ++ m, by simp [handle_call_tool, hb]⟩

theorem callToolBody_unknown (ctx : Gctx) (args : Option PyFields) (name : String)
    (h : name ∉ toolNames) :
    callToolBody ctx name args =
      Except.error (PyErr.other ("Unknown tool: " ++ name)) := by
  simp only [toolNames, handle_list_tools, List.map_cons, List.map_nil,
    List.mem_cons, List.not_mem_nil, or_false] at h
  push_neg at h
  obtain ⟨h1, h2, h3, h4, h5, h6, h7, h8, h9, h10, h11, h12, h13, h14⟩ := h
  unfold callToolBody
  rw [if_neg h1, if_neg h2, if_neg h3, if_neg h4, if_neg h5, if_neg h6, if_neg h7,
      if_neg h8, if_neg h9, if_neg h10, if_neg h11, if_neg h12, if_neg h13,
      if_neg h14]

/-- C3: for a name outside the advertised catalog, handle_call_tool returns
the single text error result "Error: Unknown tool: name" (a message containing
"Unknown tool: name"), and the result does not depend on the upstream platform
or on any access-layer operation, so none is performed. -/
theorem unknown_tool_error (name : String) (args : Option PyFields)
    (h : name ∉ toolNames) :
    (∀ ctx : Gctx, handle_call_tool ctx name args =
      [Content.text ("Error: " ++ ("Unknown tool: " ++ name))]) ∧
    (∀ ctx1 ctx2 : Gctx,
      handle_call_tool ctx1 name args = handle_call_tool ctx2 name args) ∧
    (∃ pre post : List Char,
      ("Error: " ++ ("Unknown tool: " ++ name)).data =
        pre ++ ("Unknown tool: " ++ name).data ++ post) := by
  have hb : ∀ ctx : Gctx, handle_call_tool ctx name args =
      [Content.text ("Error: " ++ ("Unknown tool: " ++ name))] := by
    intro ctx
    simp [handle_call_tool, callToolBody_unknown ctx args name h]
  refine ⟨hb, fun ctx1 ctx2 => (hb ctx1).trans (hb ctx2).symm, "Error: ".data, [], ?_⟩
  simp [String.data_append]

/-- Witness for unknown_tool_error at a concrete unknown name. -/
theorem unknown_tool_error_witness :
    handle_call_tool ctxK "unknown_tool_xyz" Option.none =
      [Content.text ("Error: " ++ ("Unknown tool: " ++ "unknown_tool_xyz"))] :=
  (unknown_tool_error "unknown_tool_xyz" Option.none (by decide)).1 ctxK

/-- C2: for every tool name in the advertised list_tools catalog, invoking
handle_call_tool with that name and its required arguments delegates to the
matching access-layer operation and wraps that operation's returned payload
as the single text result.  The seven client-backed tools delegate to the
corresponding HubSpotClient operation; the seven conversation sub-tools
delegate to the spec-modelled ConvOps operations and wrap them through
json.dumps; the first conjunct pins the advertised catalog itself. -/
theorem call_tool_delegates :
    (toolNames =
      ["hubspot_create_contact", "hubspot_create_company",
       "hubspot_get_company_activity", "hubspot_get_recent_engagements",
       "hubspot_get_active_companies", "hubspot_get_active_contacts",
       "hubspot_conversations_recent", "hubspot_conversations_inboxes",
       "hubspot_conversations_channels_for_inbox",
       "hubspot_conversations_all_channels",
       "hubspot_conversations_threads_for_inbox",
       "hubspot_conversations_threads_for_channel",
       "hubspot_conversations_thread_messages",
       "hubspot_conversations_thread_latest_message"]) ∧
    (∀ (ctx : Gctx) (k0 : String) (v0 : PyVal) (rest : PyFields)
        (f l : PyVal) (pd : PyFields) (resp : SearchResponse)
        (props : PyFields) (rr : PyVal),
      (PyFields.cons k0 v0 rest).lookup "firstname" = some f →
      (PyFields.cons k0 v0 rest).lookup "lastname" = some l →
      (PyFields.cons k0 v0 rest).getD "properties" emptyDict = PyVal.dict pd →
      ctx.env.search_contacts
        (contactSearchReq f l (pd.getD "company" PyVal.none)) = Except.ok resp →
      resp.total = 0 →
      contactCreateProps (PyFields.cons k0 v0 rest) f l = Except.ok props →
      ctx.env.create_contact props = Except.ok rr →
      handle_call_tool ctx "hubspot_create_contact"
        (some (PyFields.cons k0 v0 rest)) = [Content.text (pyToStr rr)]) ∧
    (∀ (ctx : Gctx) (k0 : String) (v0 : PyVal) (rest : PyFields)
        (nm : PyVal) (resp : SearchResponse) (props : PyFields) (rr : PyVal),
      (PyFields.cons k0 v0 rest).lookup "name" = some nm →
      ctx.env.search_companies (companySearchReq nm) = Except.ok resp →
      resp.total = 0 →
      companyCreateProps (PyFields.cons k0 v0 rest) nm = Except.ok props →
      ctx.env.create_company props = Except.ok rr →
      handle_call_tool ctx "hubspot_create_company"
        (some (PyFields.cons k0 v0 rest)) = [Content.text (pyToStr rr)]) ∧
    (∀ (ctx : Gctx) (k0 : String) (v0 : PyVal) (rest : PyFields) (cid : PyVal),
      (PyFields.cons k0 v0 rest).lookup "company_id" = some cid →
      handle_call_tool ctx "hubspot_get_company_activity"
        (some (PyFields.cons k0 v0 rest)) =
        [Content.text (get_company_activity ctx.env ctx.off cid)]) ∧
    (∀ (ctx : Gctx) (args : Option PyFields) (dy li : Int),
      optIntArg args "days" 7 = Except.ok dy →
      optIntArg args "limit" 50 = Except.ok li →
      handle_call_tool ctx "hubspot_get_recent_engagements" args =
        [Content.text (get_recent_engagements ctx.env ctx.off ctx.nowUs dy li)]) ∧
    (∀ (ctx : Gctx) (args : Option PyFields) (li : Int),
      optIntArg args "limit" 10 = Except.ok li →
      handle_call_tool ctx "hubspot_get_active_companies" args =
        [Content.text (get_recent_companies ctx.env ctx.off li)]) ∧
    (∀ (ctx : Gctx) (args : Option PyFields) (li : Int),
      optIntArg args "limit" 10 = Except.ok li →
      handle_call_tool ctx "hubspot_get_active_contacts" args =
        [Content.text (get_recent_contacts ctx.env ctx.off li)]) ∧
    (∀ (ctx : Gctx) (args : Option PyFields) (li : Int),
      optIntArg args "limit" 10 = Except.ok li →
      handle_call_tool ctx "hubspot_conversations_recent" args =
        [Content.text (get_recent_conversations ctx.env ctx.off li)]) ∧
    (∀ (ctx : Gctx) (args : Option PyFields) (li : Int) (v : PyVal) (s : String),
      optIntArg args "limit" 10 = Except.ok li →
      ctx.conv.get_inboxes li = Except.ok v →
      toJson v = some s →
      handle_call_tool ctx "hubspot_conversations_inboxes" args =
        [Content.text s]) ∧
    (∀ (ctx : Gctx) (args : Option PyFields) (v c : PyVal) (s : String),
      argLookup args "inbox_id" = some v →
      ctx.conv.get_channels_for_inbox v = Except.ok c →
      toJson c = some s →
      handle_call_tool ctx "hubspot_conversations_channels_for_inbox" args =
        [Content.text s]) ∧
    (∀ (ctx : Gctx) (args : Option PyFields) (c : PyVal) (s : String),
      ctx.conv.get_all_channels = Except.ok c →
      toJson c = some s →
      handle_call_tool ctx "hubspot_conversations_all_channels" args =
        [Content.text s]) ∧
    (∀ (ctx : Gctx) (d : PyFields) (v t : PyVal) (li : Int) (s : String),
      d.lookup "inbox_id" = some v →
      fieldsIntArg d "limit" 10 = Except.ok li →
      ctx.conv.get_threads_for_inbox v li = Except.ok t →
      toJson t = some s →
      handle_call_tool ctx "hubspot_conversations_threads_for_inbox" (some d) =
        [Content.text s]) ∧
    (∀ (ctx : Gctx) (d : PyFields) (v t : PyVal) (li : Int) (s : String),
      d.lookup "channel_id" = some v →
      fieldsIntArg d "limit" 10 = Except.ok li →
      ctx.conv.get_threads_for_channel v li = Except.ok t →
      toJson t = some s →
      handle_call_tool ctx "hubspot_conversations_threads_for_channel" (some d) =
        [Content.text s]) ∧
    (∀ (ctx : Gctx) (d : PyFields) (v t : PyVal) (li : Int) (s : String),
      d.lookup "thread_id" = some v →
      fieldsIntArg d "limit" 10 = Except.ok li →
      ctx.conv.get_thread_messages v li = Except.ok t →
      toJson t = some s →
      handle_call_tool ctx "hubspot_conversations_thread_messages" (some d) =
        [Content.text s]) ∧
    (∀ (ctx : Gctx) (args : Option PyFields) (v t : PyVal) (s : String),
      argLookup args "thread_id" = some v →
      ctx.conv.get_thread_latest_message v = Except.ok t →
      toJson t = some s →
      handle_call_tool ctx "hubspot_conversations_thread_latest_message" args =
        [Content.text s]) := by
  refine ⟨rfl, ?_, ?_, ?_, ?_, ?_, ?_, ?_, ?_, ?_, ?_, ?_, ?_, ?_, ?_⟩
  · intro ctx k0 v0 rest f l pd resp props rr hf hl hp hs ht hcp hcr
    simp only [String.reduceEq, reduceIte, gt_iff_lt, lt_self_iff_false, if_false, handle_call_tool, callToolBody, createContactBranch, dictIndex,
      hf, hl, hp, pyGet, hs, ht, hcp, hcr]
  · intro ctx k0 v0 rest nm resp props rr hn hs ht hcp hcr
    simp only [String.reduceEq, reduceIte, gt_iff_lt, lt_self_iff_false, if_false, handle_call_tool, callToolBody, createCompanyBranch, dictIndex,
      hn, hs, ht, hcp, hcr]
  · intro ctx k0 v0 rest cid hcid
    simp only [String.reduceEq, reduceIte, gt_iff_lt, lt_self_iff_false, if_false, handle_call_tool, callToolBody, dictIndex, hcid]
  · intro ctx args dy li hdy hli
    simp only [String.reduceEq, reduceIte, gt_iff_lt, lt_self_iff_false, if_false, handle_call_tool, callToolBody, hdy, hli]
  · intro ctx args li hli
    simp only [String.reduceEq, reduceIte, gt_iff_lt, lt_self_iff_false, if_false, handle_call_tool, callToolBody, hli]
  · intro ctx args li hli
    simp only [String.reduceEq, reduceIte, gt_iff_lt, lt_self_iff_false, if_false, handle_call_tool, callToolBody, hli]
  · intro ctx args li hli
    simp only [String.reduceEq, reduceIte, gt_iff_lt, lt_self_iff_false, if_false, handle_call_tool, callToolBody, hli]
  · intro ctx args li v s hli hv hs
    simp only [String.reduceEq, reduceIte, gt_iff_lt, lt_self_iff_false, if_false, handle_call_tool, callToolBody, hli, hv, jsonDumpsE, hs]
  · intro ctx args v c s hv hc hs
    simp only [String.reduceEq, reduceIte, gt_iff_lt, lt_self_iff_false, if_false, handle_call_tool, callToolBody, hv, hc, jsonDumpsE, hs]
  · intro ctx args c s hc hs
    simp only [String.reduceEq, reduceIte, gt_iff_lt, lt_self_iff_false, if_false, handle_call_tool, callToolBody, hc, jsonDumpsE, hs]
  · intro ctx d v t li s hv hli ht hs
    simp only [String.reduceEq, reduceIte, gt_iff_lt, lt_self_iff_false, if_false, handle_call_tool, callToolBody, hv, hli, ht, jsonDumpsE, hs]
  · intro ctx d v t li s hv hli ht hs
    simp only [String.reduceEq, reduceIte, gt_iff_lt, lt_self_iff_false, if_false, handle_call_tool, callToolBody, hv, hli, ht, jsonDumpsE, hs]
  · intro ctx d v t li s hv hli ht hs
    simp only [String.reduceEq, reduceIte, gt_iff_lt, lt_self_iff_false, if_false, handle_call_tool, callToolBody, hv, hli, ht, jsonDumpsE, hs]
  · intro ctx args v t s hv ht hs
    simp only [String.reduceEq, reduceIte, gt_iff_lt, lt_self_iff_false, if_false, handle_call_tool, callToolBody, hv, ht, jsonDumpsE, hs]

/-- Witness for call_tool_delegates: the company-activity tool and the
create-contact tool, at concrete contexts and arguments. -/
theorem call_tool_delegates_witness :
    handle_call_tool ctxK "hubspot_get_company_activity"
      (some (PyFields.cons "company_id" (PyVal.str "7") PyFields.nil)) =
      [Content.text (get_company_activity ctxK.env ctxK.off (PyVal.str "7"))] ∧
    handle_call_tool ctxNoMatch "hubspot_create_contact"
      (some (PyFields.cons "firstname" (PyVal.str "Ann")
        (PyFields.cons "lastname" (PyVal.str "Lee") PyFields.nil))) =
      [Content.text (pyToStr (PyVal.dict (PyFields.cons "firstname" (PyVal.str "Ann")
        (PyFields.cons "lastname" (PyVal.str "Lee") PyFields.nil))))] :=
  ⟨call_tool_delegates.2.2.2.1 ctxK "company_id" (PyVal.str "7") PyFields.nil
    (PyVal.str "7") rfl,
   call_tool_delegates.2.1 ctxNoMatch "firstname" (PyVal.str "Ann")
    (PyFields.cons "lastname" (PyVal.str "Lee") PyFields.nil)
    (PyVal.str "Ann") (PyVal.str "Lee") PyFields.nil
    { total := 0, results := [] }
    (PyFields.cons "firstname" (PyVal.str "Ann")
      (PyFields.cons "lastname" (PyVal.str "Lee") PyFields.nil))
    (PyVal.dict (PyFields.cons "firstname" (PyVal.str "Ann")
      (PyFields.cons "lastname" (PyVal.str "Lee") PyFields.nil)))
    rfl rfl rfl rfl rfl rfl rfl⟩

/-- C4: both mutation tools search first with exact-match filters and
short-circuit on a match.  (1)/(3): when the contact (resp. company)
idempotency search reports a match, the handler answers with the existing
record and the result is the same for every possible create operation, so no
create is performed.  (2)/(4): when the search reports no match, the handler
creates with the merged properties and answers with the created record.
(5)/(6): the merged properties are the caller-supplied properties dict applied
on top of the required fields.  (7)/(8): the search filters are exact matches
on firstname+lastname, plus company exactly when the caller supplied a truthy
company inside properties; for companies, on name alone. -/
theorem create_tools_idempotent :
    (∀ (ctx : Gctx) (k0 : String) (v0 : PyVal) (rest : PyFields)
        (f l : PyVal) (pd : PyFields) (resp : SearchResponse) (r : PyVal)
        (rs : List PyVal) (cf : PyFields → Except PyErr PyVal),
      (PyFields.cons k0 v0 rest).lookup "firstname" = some f →
      (PyFields.cons k0 v0 rest).lookup "lastname" = some l →
      (PyFields.cons k0 v0 rest).getD "properties" emptyDict = PyVal.dict pd →
      ctx.env.search_contacts
        (contactSearchReq f l (pd.getD "company" PyVal.none)) = Except.ok resp →
      resp.total > 0 →
      resp.results = r :: rs →
      handle_call_tool { ctx with env := { ctx.env with create_contact := cf } }
        "hubspot_create_contact" (some (PyFields.cons k0 v0 rest)) =
        [Content.text ("Contact already exists: " ++ pyToStr r)]) ∧
    (∀ (ctx : Gctx) (k0 : String) (v0 : PyVal) (rest : PyFields)
        (f l : PyVal) (pd : PyFields) (resp : SearchResponse)
        (props : PyFields) (rr : PyVal),
      (PyFields.cons k0 v0 rest).lookup "firstname" = some f →
      (PyFields.cons k0 v0 rest).lookup "lastname" = some l →
      (PyFields.cons k0 v0 rest).getD "properties" emptyDict = PyVal.dict pd →
      ctx.env.search_contacts
        (contactSearchReq f l (pd.getD "company" PyVal.none)) = Except.ok resp →
      resp.total = 0 →
      contactCreateProps (PyFields.cons k0 v0 rest) f l = Except.ok props →
      ctx.env.create_contact props = Except.ok rr →
      handle_call_tool ctx "hubspot_create_contact"
        (some (PyFields.cons k0 v0 rest)) = [Content.text (pyToStr rr)]) ∧
    (∀ (ctx : Gctx) (k0 : String) (v0 : PyVal) (rest : PyFields)
        (nm : PyVal) (resp : SearchResponse) (r : PyVal) (rs : List PyVal)
        (cf : PyFields → Except PyErr PyVal),
      (PyFields.cons k0 v0 rest).lookup "name" = some nm →
      ctx.env.search_companies (companySearchReq nm) = Except.ok resp →
      resp.total > 0 →
      resp.results = r :: rs →
      handle_call_tool { ctx with env := { ctx.env with create_company := cf } }
        "hubspot_create_company" (some (PyFields.cons k0 v0 rest)) =
        [Content.text ("Company already exists: " ++ pyToStr r)]) ∧
    (∀ (ctx : Gctx) (k0 : String) (v0 : PyVal) (rest : PyFields)
        (nm : PyVal) (resp : SearchResponse) (props : PyFields) (rr : PyVal),
      (PyFields.cons k0 v0 rest).lookup "name" = some nm →
      ctx.env.search_companies (companySearchReq nm) = Except.ok resp →
      resp.total = 0 →
      companyCreateProps (PyFields.cons k0 v0 rest) nm = Except.ok props →
      ctx.env.create_company props = Except.ok rr →
      handle_call_tool ctx "hubspot_create_company"
        (some (PyFields.cons k0 v0 rest)) = [Content.text (pyToStr rr)]) ∧
    (∀ (d : PyFields) (f l : PyVal) (pd : PyFields),
      d.lookup "email" = Option.none →
      d.lookup "properties" = some (PyVal.dict pd) →
      contactCreateProps d f l = Except.ok
        (updateFields (PyFields.ofList [("firstname", f), ("lastname", l)]) pd)) ∧
    (∀ (d : PyFields) (nm : PyVal) (pd : PyFields),
      d.lookup "properties" = some (PyVal.dict pd) →
      companyCreateProps d nm = Except.ok
        (updateFields (PyFields.ofList [("name", nm)]) pd)) ∧
    (∀ (f l c : PyVal),
      contactSearchReq f l PyVal.none =
        { sorts := [],
          filter_groups := [PyVal.dict (PyFields.ofList
            [("filters", PyVal.list (PyList.ofList
              [eqFilter "firstname" f, eqFilter "lastname" l]))])],
          limit := Option.none, properties := [] } ∧
      (pyTruthy c = true →
        contactSearchReq f l c =
          { sorts := [],
            filter_groups := [PyVal.dict (PyFields.ofList
              [("filters", PyVal.list (PyList.ofList
                [eqFilter "firstname" f, eqFilter "lastname" l,
                 eqFilter "company" c]))])],
            limit := Option.none, properties := [] })) ∧
    (∀ (nm : PyVal),
      companySearchReq nm =
        { sorts := [],
          filter_groups := [PyVal.dict (PyFields.ofList
            [("filters", PyVal.list (PyList.ofList [eqFilter "name" nm]))])],
          limit := Option.none, properties := [] }) := by
  refine ⟨?_, ?_, ?_, ?_, ?_, ?_, ?_, ?_⟩
  · intro ctx k0 v0 rest f l pd resp r rs cf hf hl hp hs ht hr
    simp only [String.reduceEq, reduceIte, handle_call_tool, callToolBody,
      createContactBranch, dictIndex, hf, hl, hp, pyGet, hs, ht, hr]
  · intro ctx k0 v0 rest f l pd resp props rr hf hl hp hs ht hcp hcr
    simp only [String.reduceEq, reduceIte, gt_iff_lt, lt_self_iff_false, if_false,
      handle_call_tool, callToolBody, createContactBranch, dictIndex,
      hf, hl, hp, pyGet, hs, ht, hcp, hcr]
  · intro ctx k0 v0 rest nm resp r rs cf hn hs ht hr
    simp only [String.reduceEq, reduceIte, handle_call_tool, callToolBody,
      createCompanyBranch, dictIndex, hn, hs, ht, hr]
  · intro ctx k0 v0 rest nm resp props rr hn hs ht hcp hcr
    simp only [String.reduceEq, reduceIte, gt_iff_lt, lt_self_iff_false, if_false,
      handle_call_tool, callToolBody, createCompanyBranch, dictIndex,
      hn, hs, ht, hcp, hcr]
  · intro d f l pd he hpp
    simp only [contactCreateProps, he, hpp, pyUpdate, List.append_nil]
  · intro d nm pd hpp
    simp only [companyCreateProps, hpp, pyUpdate]
  · intro f l c
    refine ⟨rfl, fun hc => ?_⟩
    simp only [contactSearchReq, hc, if_true, List.cons_append, List.nil_append]
  · intro nm
    rfl

/-- Witness for create_tools_idempotent: one existing-match invocation (with a
create operation that would fail if called) and one fresh-create invocation. -/
theorem create_tools_idempotent_witness :
    handle_call_tool { ctxMatch with env := { ctxMatch.env with
        create_contact := fun _ => Except.error (PyErr.other "must not be called") } }
      "hubspot_create_contact"
      (some (PyFields.cons "firstname" (PyVal.str "Ann")
        (PyFields.cons "lastname" (PyVal.str "Lee") PyFields.nil))) =
      [Content.text ("Contact already exists: " ++ pyToStr sampleContact)] ∧
    handle_call_tool ctxNoMatch "hubspot_create_company"
      (some (PyFields.cons "name" (PyVal.str "Acme") PyFields.nil)) =
      [Content.text (pyToStr
        (PyVal.dict (PyFields.cons "name" (PyVal.str "Acme") PyFields.nil)))] :=
  ⟨create_tools_idempotent.1 ctxMatch "firstname" (PyVal.str "Ann")
    (PyFields.cons "lastname" (PyVal.str "Lee") PyFields.nil)
    (PyVal.str "Ann") (PyVal.str "Lee") PyFields.nil
    { total := 1, results := [sampleContact] } sampleContact []
    (fun _ => Except.error (PyErr.other "must not be called"))
    rfl rfl rfl rfl (by decide) rfl,
   create_tools_idempotent.2.2.2.1 ctxNoMatch "name" (PyVal.str "Acme")
    PyFields.nil (PyVal.str "Acme") { total := 0, results := [] }
    (PyFields.cons "name" (PyVal.str "Acme") PyFields.nil)
    (PyVal.dict (PyFields.cons "name" (PyVal.str "Acme") PyFields.nil))
    rfl rfl rfl rfl rfl⟩

theorem isDictVal_elim (v : PyVal) (h : isDictVal v = true) :
    ∃ fs, v = PyVal.dict fs :=
  match v, h with
  | PyVal.dict fs, _ => ⟨fs, rfl⟩

/-- C5: in the shared engagement formatting of get_company_activity and
get_recent_engagements (one embedded definition, since the two source sites
are byte-identical), an EMAIL engagement's content.body is the metadata text
value when that value is truthy -- in particular when text is a non-empty
string -- and the metadata html value otherwise (text absent or empty),
mirroring the Python expression text or html with empty-string defaults. -/
theorem email_body_formatting (er ed md : PyFields)
    (h1 : er.getD "engagement" emptyDict = PyVal.dict ed)
    (h2 : er.getD "metadata" emptyDict = PyVal.dict md)
    (h3 : ed.getD "type" PyVal.none = PyVal.str "EMAIL")
    (hok : emailMetaOK md = true) :
    ∃ fe c,
      format_engagement (PyVal.dict er) = Except.ok (PyVal.dict fe) ∧
      fe.lookup "content" = some (PyVal.dict c) ∧
      c.lookup "body" = some (if pyTruthy (md.getD "text" (PyVal.str ""))
        then md.getD "text" (PyVal.str "") else md.getD "html" (PyVal.str "")) ∧
      (∀ t : String, md.lookup "text" = some (PyVal.str t) → t ≠ "" →
        (if pyTruthy (md.getD "text" (PyVal.str ""))
          then md.getD "text" (PyVal.str "") else md.getD "html" (PyVal.str "")) =
          PyVal.str t) ∧
      ((md.lookup "text" = Option.none ∨ md.lookup "text" = some (PyVal.str "")) →
        (if pyTruthy (md.getD "text" (PyVal.str ""))
          then md.getD "text" (PyVal.str "") else md.getD "html" (PyVal.str "")) =
          md.getD "html" (PyVal.str "")) := by
  simp only [emailMetaOK, Bool.and_eq_true] at hok
  obtain ⟨⟨⟨⟨hfrom, hsender⟩, hto⟩, hcc⟩, hbcc⟩ := hok
  obtain ⟨fd, hfd⟩ := isDictVal_elim _ hfrom
  obtain ⟨sd, hsd⟩ := isDictVal_elim _ hsender
  obtain ⟨xs, hxs, hxsd⟩ := isListOfDicts_elim _ hto
  obtain ⟨cs, hcs, hcsd⟩ := isListOfDicts_elim _ hcc
  obtain ⟨bs, hbs, hbsd⟩ := isListOfDicts_elim _ hbcc
  obtain ⟨ysTo, hysTo, _⟩ :=
    mapM_dicts_ok formatRecipient (fun fs => ⟨_, rfl⟩) xs.toList hxsd
  obtain ⟨ysCc, hysCc, _⟩ :=
    mapM_dicts_ok formatRecipient (fun fs => ⟨_, rfl⟩) cs.toList hcsd
  obtain ⟨ysBcc, hysBcc, _⟩ :=
    mapM_dicts_ok formatRecipient (fun fs => ⟨_, rfl⟩) bs.toList hbsd
  refine ⟨PyFields.ofList
    [("id", ed.getD "id" PyVal.none), ("type", ed.getD "type" PyVal.none),
     ("created_at", ed.getD "createdAt" PyVal.none),
     ("last_updated", ed.getD "lastUpdated" PyVal.none),
     ("created_by", ed.getD "createdBy" PyVal.none),
     ("modified_by", ed.getD "modifiedBy" PyVal.none),
     ("timestamp", ed.getD "timestamp" PyVal.none),
     ("associations", er.getD "associations" emptyDict),
     ("content", PyVal.dict (PyFields.ofList
       [("subject", md.getD "subject" (PyVal.str "")),
        ("from", PyVal.dict (PyFields.ofList
          [("raw", fd.getD "raw" (PyVal.str "")),
           ("email", fd.getD "email" (PyVal.str "")),
           ("firstName", fd.getD "firstName" (PyVal.str "")),
           ("lastName", fd.getD "lastName" (PyVal.str ""))])),
        ("to", PyVal.list (PyList.ofList ysTo)),
        ("cc", PyVal.list (PyList.ofList ysCc)),
        ("bcc", PyVal.list (PyList.ofList ysBcc)),
        ("sender", PyVal.dict (PyFields.ofList
          [("email", sd.getD "email" (PyVal.str ""))])),
        ("body", if pyTruthy (md.getD "text" (PyVal.str ""))
          then md.getD "text" (PyVal.str "") else md.getD "html" (PyVal.str ""))]))],
    PyFields.ofList
      [("subject", md.getD "subject" (PyVal.str "")),
       ("from", PyVal.dict (PyFields.ofList
         [("raw", fd.getD "raw" (PyVal.str "")),
          ("email", fd.getD "email" (PyVal.str "")),
          ("firstName", fd.getD "firstName" (PyVal.str "")),
          ("lastName", fd.getD "lastName" (PyVal.str ""))])),
       ("to", PyVal.list (PyList.ofList ysTo)),
       ("cc", PyVal.list (PyList.ofList ysCc)),
       ("bcc", PyVal.list (PyList.ofList ysBcc)),
       ("sender", PyVal.dict (PyFields.ofList
         [("email", sd.getD "email" (PyVal.str ""))])),
       ("body", if pyTruthy (md.getD "text" (PyVal.str ""))
         then md.getD "text" (PyVal.str "") else md.getD "html" (PyVal.str ""))],
    ?_, ?_, ?_, ?_, ?_⟩
  · simp only [format_engagement, pyGet, exc_bind_ok, h1, h2, h3, pyEqStr,
      String.reduceEq, reduceIte, hfd, hsd, hxs, hcs, hbs, pyIter,
      hysTo, hysCc, hysBcc, exc_pure]
    rfl
  · rfl
  · rfl
  · intro t htx htne
    simp only [PyFields.getD, htx]
    simp [pyTruthy, htne]
  · intro hcase
    rcases hcase with hnone | hempty
    · simp only [PyFields.getD, hnone]
      simp [pyTruthy]
    · simp only [PyFields.getD, hempty]
      simp [pyTruthy]

/-- Witness for email_body_formatting: an EMAIL engagement whose metadata has
an empty text and a non-empty html, whose formatted body is the html value. -/
theorem email_body_formatting_witness :
    emailMetaOK (PyFields.cons "text" (PyVal.str "")
      (PyFields.cons "html" (PyVal.str "fallback") PyFields.nil)) = true ∧
    ∃ fe c,
      format_engagement (PyVal.dict
        (PyFields.cons "engagement"
          (PyVal.dict (PyFields.cons "type" (PyVal.str "EMAIL") PyFields.nil))
          (PyFields.cons "metadata"
            (PyVal.dict (PyFields.cons "text" (PyVal.str "")
              (PyFields.cons "html" (PyVal.str "fallback") PyFields.nil)))
            PyFields.nil))) = Except.ok (PyVal.dict fe) ∧
      fe.lookup "content" = some (PyVal.dict c) ∧
      c.lookup "body" = some (PyVal.str "fallback") := by
  refine ⟨rfl, ?_⟩
  obtain ⟨fe, c, hfe, hc, hb, _, hhtml⟩ :=
    email_body_formatting
      (PyFields.cons "engagement"
        (PyVal.dict (PyFields.cons "type" (PyVal.str "EMAIL") PyFields.nil))
        (PyFields.cons "metadata"
          (PyVal.dict (PyFields.cons "text" (PyVal.str "")
            (PyFields.cons "html" (PyVal.str "fallback") PyFields.nil)))
          PyFields.nil))
      (PyFields.cons "type" (PyVal.str "EMAIL") PyFields.nil)
      (PyFields.cons "text" (PyVal.str "")
        (PyFields.cons "html" (PyVal.str "fallback") PyFields.nil))
      rfl rfl rfl rfl
  refine ⟨fe, c, hfe, hc, ?_⟩
  rw [hb, hhtml (Or.inr rfl)]
  rfl
